import Mathlib

/-!
# Verification of the colour-science library core

A shallow embedding, over `ℚ` (for the exact table/signal algebra) and `ℝ`
(for the CIE 1994 chromatic-adaptation formulas), of the parts of the
`colour` repository that the verified properties below are about:

* the `Signal` continuous-signal container (indexed write with knot
  insertion, arithmetical operations, extrapolation policy);
* the LUT conversion entry point `LUT_to_LUT` for the 3x1D → 1D reduction;
* the spectral-to-tristimulus integration pipeline
  (`sd_to_XYZ_integration`, the ASTM E308 shape validation, and the cached
  `lagrange_coefficients_ASTME2022`);
* `bandpass_correction_Stearns1988` (`colour/colorimetry/correction.py`);
* `chromatic_adaptation_CIE1994` (`colour/adaptation/cie1994.py`).

Components whose implementation files are not part of the source snapshot
(only their tests are) are modelled from the specification, and say so in
their doc strings.  A small rational interval-arithmetic layer, with
soundness theorems against `ℝ`, supports the numerical claim about
`chromatic_adaptation_CIE1994`.
-/

namespace Colour

/-! ## Generic list helpers -/

/-- Write `v` at position `i` of a list, leaving the list unchanged when the
index is out of range (the behaviour of a guarded in-place array write). -/
def setL {α : Type} : List α → ℕ → α → List α
  | [], _, _ => []
  | _ :: xs, 0, v => v :: xs
  | x :: xs, n + 1, v => x :: setL xs n v

/-! ## Signal

Modelled from the spec: the implementation file `colour/continuous/signal.py`
is not part of the source snapshot (only its tests are).  Per §3/§4.3 of the
specification a `Signal` owns a strictly ordered sequence of real domain
samples with one range sample per domain sample; we represent the pair as a
single sorted knot list.  Interpolator/extrapolator configuration is carried
separately where a claim needs it. -/

structure Signal where
  knots : List (ℚ × ℚ)
deriving DecidableEq

def Signal.domain (s : Signal) : List ℚ := s.knots.map Prod.fst

def Signal.rangeValues (s : Signal) : List ℚ := s.knots.map Prod.snd

def Signal.length (s : Signal) : ℕ := s.knots.length

/-- The range value stored at an exactly matching domain position. -/
def Signal.valueAt (s : Signal) (x : ℚ) : Option ℚ :=
  (s.knots.find? (fun p => decide (p.1 = x))).map Prod.snd

/-- Insert (or overwrite) a knot in a sorted knot list: an existing domain
position is updated in place, a new domain position is inserted keeping the
domain sorted. -/
def insertKnot (x v : ℚ) : List (ℚ × ℚ) → List (ℚ × ℚ)
  | [] => [(x, v)]
  | p :: rest =>
    if x < p.1 then (x, v) :: p :: rest
    else if x = p.1 then (x, v) :: rest
    else p :: insertKnot x v rest

/-- Modelled from the spec: `Signal.__setitem__` at a single scalar domain
position (§4.3: "If a written domain position does not already exist in the
domain, it is inserted (domain grows, stays sorted) rather than rejected"). -/
def Signal.setitem (s : Signal) (x v : ℚ) : Signal :=
  ⟨insertKnot x v s.knots⟩

/-- The arithmetic operators of `Signal.arithmetical_operation` that have an
exact inverse; the source also supports `**`, which no claim exercises and
which has no total `ℚ` semantics, so it is left out of the model. -/
inductive ArithOp
  | add
  | sub
  | mul
  | div
deriving DecidableEq

def applyOp (op : ArithOp) (a v : ℚ) : ℚ :=
  match op with
  | .add => a + v
  | .sub => a - v
  | .mul => a * v
  | .div => a / v

/-- Modelled from the spec: `Signal.arithmetical_operation(value, op,
in_place)` with a scalar `value` (§4.3).  The operation is applied
element-wise to the range.  The result is returned together with the state
of `self` after the call: with `in_place=False` the original signal is left
unmodified, with `in_place=True` the mutated signal is also `self`. -/
def Signal.arithmetical_operation (s : Signal) (v : ℚ) (op : ArithOp)
    (in_place : Bool) : Signal × Signal :=
  let r : Signal := ⟨s.knots.map (fun p => (p.1, applyOp op p.2 v))⟩
  (r, if in_place then r else s)

/-! ## Extrapolator

Modelled from the spec: `colour/algebra/extrapolation.py` is not part of the
source snapshot.  Per §4.1 the extrapolator wraps an interpolator and, for a
query outside `[x_1, x_n]`, applies either the `Constant` method (a fixed
`left`/`right` value, both defaulting to NaN) or the `Linear` method (the
boundary-tangent line through the two boundary-adjacent samples).  NaN is
represented by `none`. -/

inductive ExtrapMethod
  | constant
  | linear
deriving DecidableEq

structure ExtrapolatorKwargs where
  method : ExtrapMethod
  left : Option ℚ
  right : Option ℚ
deriving DecidableEq

/-- The default extrapolator configuration of a `Signal`: `Constant` method
with unset (NaN) `left` and `right` values. -/
def defaultExtrapolatorKwargs : ExtrapolatorKwargs :=
  ⟨.constant, none, none⟩

def linearExtrapolatorKwargs : ExtrapolatorKwargs :=
  ⟨.linear, none, none⟩

/-- The value at `x` of the line through `p` and `q`. -/
def lineThrough (p q : ℚ × ℚ) (x : ℚ) : ℚ :=
  p.2 + (x - p.1) * (q.2 - p.2) / (q.1 - p.1)

/-- Modelled from the spec: evaluation of a `Signal` at a query point,
delegating to the interpolator `interp` inside `[x_1, x_n]` and to the
configured extrapolation method outside (§4.1, §4.3).  `none` plays the
role of NaN; evaluation never fails. -/
def evaluateKnots (kw : ExtrapolatorKwargs) (interp : ℚ → ℚ) (x : ℚ) :
    List (ℚ × ℚ) → Option ℚ
  | [] => none
  | p :: rest =>
    if x < p.1 then
      match kw.method with
      | .constant => kw.left
      | .linear =>
        match rest with
        | [] => some p.2
        | q :: _ => some (lineThrough p q x)
    else if (rest.getLastD p).1 < x then
      match kw.method with
      | .constant => kw.right
      | .linear =>
        match (p :: rest).reverse with
        | a :: b :: _ => some (lineThrough a b x)
        | _ => some p.2
    else some (interp x)

def Signal.evaluate (s : Signal) (kw : ExtrapolatorKwargs) (interp : ℚ → ℚ)
    (x : ℚ) : Option ℚ :=
  evaluateKnots kw interp x s.knots

/-! ## LUT family: `LUT_to_LUT` for the 3x1D → 1D reduction

Modelled from the spec: `colour/io/luts/lut.py` is not part of the source
snapshot.  Per §4.4, a dimension-reducing conversion such as 3x1D → 1D
requires `force_conversion=True` and combines the three channels with
`channel_weights` as a weighted sum, applied to both the table and the
per-channel domain. -/

structure LUT3x1D where
  table : List (ℚ × ℚ × ℚ)
  domain : List (ℚ × ℚ × ℚ)
deriving DecidableEq

structure LUT1D where
  table : List ℚ
  domain : List ℚ
deriving DecidableEq

/-- The `channel_weights` weighted sum of one three-channel row. -/
def weightedSum (w t : ℚ × ℚ × ℚ) : ℚ :=
  w.1 * t.1 + w.2.1 * t.2.1 + w.2.2 * t.2.2

def lutForceConversionError : String :=
  "LUT_to_LUT: conversion to a lower dimension requires force_conversion"

/-- Modelled from the spec: `LUT_to_LUT(lut, LUT1D, force_conversion,
channel_weights)` for a 3x1D source (§4.4).  Without `force_conversion` the
conversion is a usage error; with it, the channels of the table and of the
per-channel domain are combined by the `channel_weights` weighted sum. -/
def LUT_to_LUT_3x1D_to_LUT1D (lut : LUT3x1D) (force_conversion : Bool)
    (channel_weights : ℚ × ℚ × ℚ) : Except String LUT1D :=
  if force_conversion then
    .ok ⟨lut.table.map (weightedSum channel_weights),
         lut.domain.map (weightedSum channel_weights)⟩
  else
    .error lutForceConversionError

/-! ## Spectral shapes and direct integration

Modelled from the spec: `colour/colorimetry/tristimulus_values.py` and the
spectral-distribution containers are not part of the source snapshot (only
`tests/test_tristimulus_values.py` is). -/

/-- `SpectralShape(start, end, interval)` generating the canonical wavelength
grid `start, start + interval, …, end` (§6). -/
structure SpectralShape where
  start : ℚ
  stop : ℚ
  interval : ℚ
deriving DecidableEq

def SpectralShape.sampleCount (sh : SpectralShape) : ℕ :=
  (⌊(sh.stop - sh.start) / sh.interval⌋).toNat + 1

def SpectralShape.wavelengths (sh : SpectralShape) : List ℚ :=
  (List.range sh.sampleCount).map (fun i : ℕ => sh.start + (i : ℚ) * sh.interval)

/-- A sampled spectral distribution: a shape together with the sample value
at each wavelength of its grid. -/
structure SpectralDistribution where
  shape : SpectralShape
  value : ℚ → ℚ

/-- The spectral distribution that is `a` at wavelength `w0` and zero at
every other wavelength. -/
def sdImpulse (sh : SpectralShape) (w0 a : ℚ) : SpectralDistribution :=
  ⟨sh, fun w => if w = w0 then a else 0⟩

/-- Modelled from the spec: `sd_to_XYZ_integration` (§4.5).  Per wavelength
the product `illuminant(w) * cmfs(w) * sd(w)` is summed (Riemann sum),
multiplied by the wavelength step and by the normalisation constant `k`.
`k` defaults to `100 / Σ(illuminant(w) · ybar(w) · Δw)`; a caller-supplied
`k` bypasses the normalising sum entirely. -/
def sd_to_XYZ_integration (sd : SpectralDistribution) (cmfs : ℚ → ℚ × ℚ × ℚ)
    (illuminant : ℚ → ℚ) (k : Option ℚ) : ℚ × ℚ × ℚ :=
  let ws := sd.shape.wavelengths
  let dw := sd.shape.interval
  let kv :=
    match k with
    | some kq => kq
    | none => 100 / ((ws.map (fun w => illuminant w * (cmfs w).2.1 * dw)).sum)
  (kv * (ws.map (fun w => illuminant w * (cmfs w).1 * sd.value w * dw)).sum,
   kv * (ws.map (fun w => illuminant w * (cmfs w).2.1 * sd.value w * dw)).sum,
   kv * (ws.map (fun w => illuminant w * (cmfs w).2.2 * sd.value w * dw)).sum)

/-! ## ASTM E308 practice-range validation

Modelled from the spec and pinned by the in-source tests: the spec (§4.5)
asks for a validation error when the shape does not use a standard-practice
measurement interval (1, 5, 10 or 20 nm) *and* when it does not span at
least [360, 830] nm; the repository's own tests however evaluate
`sd_to_XYZ_ASTME308` successfully on `SpectralShape(400, 700, 1)` and
`SpectralShape(401, 701, 20)` (`test_tristimulus_values.py`,
`TestSd_to_XYZ_ASTME308`), so only the measurement interval is validated.
The model captures the validation stage; on success it hands the validated
shape to the downstream weighting computation. -/

def standardPracticeInterval (sh : SpectralShape) : Bool :=
  sh.interval == 1 || sh.interval == 5 || sh.interval == 10 || sh.interval == 20

def astme308IntervalError : String :=
  "Tristimulus values conversion from spectral data according to ASTM E308-15 requires a measurement interval of 1, 5, 10 or 20nm"

def sd_to_XYZ_ASTME308_validate (sh : SpectralShape) (use_practice_range : Bool) :
    Except String SpectralShape :=
  if use_practice_range && !standardPracticeInterval sh then
    .error astme308IntervalError
  else
    .ok sh

/-- The conformity condition exactly as the verified claim states it: a
standard-practice measurement interval and a span of at least
[360, 830] nm. -/
def claimedPracticeConforming (sh : SpectralShape) : Bool :=
  standardPracticeInterval sh && decide (sh.start ≤ 360) && decide (830 ≤ sh.stop)

/-! ## Cached Lagrange coefficients with an explicit heap

Modelled from the spec: `lagrange_coefficients_ASTME2022` (§4.2, §5) caches
its coefficient matrices keyed by (subdivision, boundary-mode) and must
return a *defensive copy*, so that caller mutation cannot corrupt the shared
cached array.  To make mutation observable in a pure embedding, arrays live
in an explicit heap (a list of rational arrays addressed by index); the
cache stores heap references and every call hands the caller a freshly
allocated copy, exactly as `np.copy` of the cached array would. -/

/-- One Lagrange basis coefficient: the basis polynomial for node `j` of the
nodes `0, 1, …, d - 1`, evaluated at `t`. -/
def lagrangeBasis (d j : ℕ) (t : ℚ) : ℚ :=
  ((List.range d).filter (fun m => m ≠ j)).foldl
    (fun acc m => acc * ((t - m) / ((j : ℚ) - m))) 1

/-- The `d` Lagrange coefficients at evaluation point `t`. -/
def lagrange_coefficients (t : ℚ) (d : ℕ) : List ℚ :=
  (List.range d).map (fun j => lagrangeBasis d j t)

/-- The coefficient matrix (rows flattened) of
`lagrange_coefficients_ASTME2022`: for subdivision `interval`, the rows are
the interpolation weights at the fractional positions `i / interval`
(`i = 1 … interval - 1`), with the 3-point stencil at the boundary and the
4-point stencil (evaluation shifted by one node) in the interior. -/
def lagrangeCoefficientsASTME2022Data (interval : ℕ) (boundary : Bool) : List ℚ :=
  ((List.range (interval - 1)).map (fun i =>
    let r : ℚ := ((i : ℚ) + 1) / (interval : ℚ)
    if boundary then lagrange_coefficients r 3
    else lagrange_coefficients (r + 1) 4)).flatten

abbrev HeapArrays := List (List ℚ)

def heapRead (h : HeapArrays) (r : ℕ) : List ℚ := h.getD r []

def heapWrite (h : HeapArrays) (r : ℕ) (a : List ℚ) : HeapArrays := setL h r a

structure LagrangeCacheState where
  heap : HeapArrays
  cache : List ((ℕ × Bool) × ℕ)
deriving DecidableEq

/-- Every cached reference points into the heap. -/
def cacheWF (st : LagrangeCacheState) : Prop :=
  ∀ e ∈ st.cache, e.2 < st.heap.length

/-- Modelled from the spec: `lagrange_coefficients_ASTME2022(interval,
interval_type)` with its process-wide cache made explicit.  A cache hit
returns a fresh copy of the cached array; a miss computes the coefficients,
stores them under the key, and still returns a fresh copy to the caller. -/
def lagrange_coefficients_ASTME2022 (st : LagrangeCacheState) (interval : ℕ)
    (boundary : Bool) : ℕ × LagrangeCacheState :=
  match st.cache.find? (fun e => e.1 == (interval, boundary)) with
  | some e =>
    let data := heapRead st.heap e.2
    (st.heap.length, ⟨st.heap ++ [data], st.cache⟩)
  | none =>
    let data := lagrangeCoefficientsASTME2022Data interval boundary
    let rc := st.heap.length
    (rc + 1, ⟨st.heap ++ [data, data], st.cache ++ [((interval, boundary), rc)]⟩)

/-! ## Stearns and Stearns (1988) bandpass correction

Embedded from `colour/colorimetry/correction.py`
(`bandpass_correction_Stearns1988`): the samples are corrected *in place* —
first both end samples from their original neighbours, then the interior
samples in increasing index order, each reading the already-corrected value
at `i - 1` (and, at `i = n - 2`, the already-corrected value at `n - 1`). -/

def CONSTANT_ALPHA_STEARNS : ℚ := 0.083

/-- The interior loop `for i in range(1, len(values) - 1)` of
`bandpass_correction_Stearns1988`, as an in-place sweep: `k` iterations
remain, the next write is at index `i`. -/
def stearnsLoop (A : ℚ) : ℕ → ℕ → List ℚ → List ℚ
  | _, 0, v => v
  | i, k + 1, v =>
    stearnsLoop A (i + 1) k
      (setL v i (-A * v.getD (i - 1) 0 + (1 + 2 * A) * v.getD i 0
        - A * v.getD (i + 1) 0))

/-- `bandpass_correction_Stearns1988` on the raw sample values.  Mirrors the
source: `values[0]` and `values[-1]` are corrected first, then the interior
sweep runs from index 1 through `len(values) - 2`. -/
def bandpass_correction_Stearns1988 (v : List ℚ) : List ℚ :=
  let A := CONSTANT_ALPHA_STEARNS
  let n := v.length
  let v1 := setL v 0 ((1 + A) * v.getD 0 0 - A * v.getD 1 0)
  let v2 := setL v1 (n - 1) ((1 + A) * v1.getD (n - 1) 0 - A * v1.getD (n - 2) 0)
  stearnsLoop A 1 (n - 2) v2

/-! ## CIE 1994 chromatic adaptation

Embedded from `colour/adaptation/cie1994.py` over `ℝ` (the Python code runs
on IEEE doubles; the embedding idealises them as real numbers, which is the
scale at which the verified tolerances of 1e-6 live).  The ambient
domain-range scale is `Reference`, under which `to_domain_100` and
`from_range_100` are the identity.  The shared numeric primitives `spow` and
`sdiv` (`colour/algebra`, not part of the source snapshot) are modelled from
the spec: `spow(a, p) = sign(a) * |a| ** p`, and `sdiv` is plain division
(its zero-denominator handling is never reached at the verified inputs). -/

abbrev Tri := ℝ × ℝ × ℝ

abbrev QTri := ℚ × ℚ × ℚ

abbrev QMat3 := QTri × QTri × QTri

/-- Modelled from the spec: the von Kries chromatic adaptation transform
`CAT_VON_KRIES` (`colour/adaptation/datasets`, not part of the source
snapshot); its rows are pinned exactly by the in-source docstring example
`XYZ_to_RGB_CIE1994([28, 21.26, 5.27]) = [25.8244273, 18.6791422,
4.8390194]`. -/
def MATRIX_XYZ_TO_RGB_CIE1994 : QMat3 :=
  ((0.40024, 0.70760, -0.08081),
   (-0.22630, 1.16532, 0.04570),
   (0, 0, 0.91822))

def det3 (m : QMat3) : ℚ :=
  m.1.1 * (m.2.1.2.1 * m.2.2.2.2 - m.2.1.2.2 * m.2.2.2.1)
    - m.1.2.1 * (m.2.1.1 * m.2.2.2.2 - m.2.1.2.2 * m.2.2.1)
    + m.1.2.2 * (m.2.1.1 * m.2.2.2.1 - m.2.1.2.1 * m.2.2.1)

/-- The exact inverse of a 3×3 rational matrix by the adjugate formula
(undefined output for a singular matrix). -/
def inv3 (m : QMat3) : QMat3 :=
  let d := det3 m
  (((m.2.1.2.1 * m.2.2.2.2 - m.2.1.2.2 * m.2.2.2.1) / d,
    -(m.1.2.1 * m.2.2.2.2 - m.1.2.2 * m.2.2.2.1) / d,
    (m.1.2.1 * m.2.1.2.2 - m.1.2.2 * m.2.1.2.1) / d),
   (-(m.2.1.1 * m.2.2.2.2 - m.2.1.2.2 * m.2.2.1) / d,
    (m.1.1 * m.2.2.2.2 - m.1.2.2 * m.2.2.1) / d,
    -(m.1.1 * m.2.1.2.2 - m.1.2.2 * m.2.1.1) / d),
   ((m.2.1.1 * m.2.2.2.1 - m.2.1.2.1 * m.2.2.1) / d,
    -(m.1.1 * m.2.2.2.1 - m.1.2.1 * m.2.2.1) / d,
    (m.1.1 * m.2.1.2.1 - m.1.2.1 * m.2.1.1) / d))

/-- `np.linalg.inv(MATRIX_XYZ_TO_RGB_CIE1994)`, idealised as the exact
rational inverse. -/
def MATRIX_RGB_TO_XYZ_CIE1994 : QMat3 := inv3 MATRIX_XYZ_TO_RGB_CIE1994

/-- `vecmul` of a constant rational matrix with a real tristimulus triple. -/
noncomputable def vecmulQ (m : QMat3) (v : Tri) : Tri :=
  ((m.1.1 : ℝ) * v.1 + (m.1.2.1 : ℝ) * v.2.1 + (m.1.2.2 : ℝ) * v.2.2,
   (m.2.1.1 : ℝ) * v.1 + (m.2.1.2.1 : ℝ) * v.2.1 + (m.2.1.2.2 : ℝ) * v.2.2,
   (m.2.2.1 : ℝ) * v.1 + (m.2.2.2.1 : ℝ) * v.2.1 + (m.2.2.2.2 : ℝ) * v.2.2)

/-- Modelled from the spec: `colour.algebra.spow`, the sign-preserving
power `sign(a) * |a| ** p`. -/
noncomputable def spow (a p : ℝ) : ℝ := Real.sign a * |a| ^ p

/-- Modelled from the spec: `colour.algebra.sdiv` under `sdiv_mode()`; at
every verified input the denominator is non-zero, so it is plain division. -/
noncomputable def sdiv (a b : ℝ) : ℝ := a / b

noncomputable def XYZ_to_RGB_CIE1994 (XYZ : Tri) : Tri :=
  vecmulQ MATRIX_XYZ_TO_RGB_CIE1994 XYZ

noncomputable def RGB_to_XYZ_CIE1994 (RGB : Tri) : Tri :=
  vecmulQ MATRIX_RGB_TO_XYZ_CIE1994 RGB

noncomputable def intermediate_values (xy_o : ℝ × ℝ) : Tri :=
  let x_o := xy_o.1
  let y_o := xy_o.2
  ((0.48105 * x_o + 0.78841 * y_o - 0.08081) / y_o,
   (-0.27200 * x_o + 1.11962 * y_o + 0.04570) / y_o,
   (0.91822 * (1 - x_o - y_o)) / y_o)

noncomputable def effective_adapting_responses (xez : Tri) (Y_o E_o : ℝ) : Tri :=
  (Y_o * E_o / (100 * Real.pi) * xez.1,
   Y_o * E_o / (100 * Real.pi) * xez.2.1,
   Y_o * E_o / (100 * Real.pi) * xez.2.2)

noncomputable def beta_1 (x : ℝ) : ℝ :=
  (6.469 + 6.362 * spow x 0.4495) / (6.469 + spow x 0.4495)

noncomputable def beta_2 (x : ℝ) : ℝ :=
  0.7844 * (8.414 + 8.091 * spow x 0.5128) / (8.414 + spow x 0.5128)

noncomputable def exponential_factors (RGB_o : Tri) : Tri :=
  (beta_1 RGB_o.1, beta_1 RGB_o.2.1, beta_2 RGB_o.2.2)

noncomputable def K_coefficient (xez_1 xez_2 bRGB_o1 bRGB_o2 : Tri)
    (Y_o n : ℝ) : ℝ :=
  spow ((Y_o * xez_1.1 + n) / (20 * xez_1.1 + n)) (2 / 3 * bRGB_o1.1) /
      spow ((Y_o * xez_2.1 + n) / (20 * xez_2.1 + n)) (2 / 3 * bRGB_o2.1) *
    (spow ((Y_o * xez_1.2.1 + n) / (20 * xez_1.2.1 + n)) (1 / 3 * bRGB_o1.2.1) /
      spow ((Y_o * xez_2.2.1 + n) / (20 * xez_2.2.1 + n)) (1 / 3 * bRGB_o2.2.1))

/-- The per-component corresponding-colour formula `RGB_c` nested inside
`corresponding_colour` in the source. -/
noncomputable def RGB_c (Y_o x_1 x_2 y_1 y_2 z K n : ℝ) : ℝ :=
  (Y_o * x_2 + n) * spow K (sdiv 1 y_2) *
    spow ((z + n) / (Y_o * x_1 + n)) (sdiv y_1 y_2) - n

noncomputable def corresponding_colour (RGB_1 xez_1 xez_2 bRGB_o1 bRGB_o2 : Tri)
    (Y_o K n : ℝ) : Tri :=
  (RGB_c Y_o xez_1.1 xez_2.1 bRGB_o1.1 bRGB_o2.1 RGB_1.1 K n,
   RGB_c Y_o xez_1.2.1 xez_2.2.1 bRGB_o1.2.1 bRGB_o2.2.1 RGB_1.2.1 K n,
   RGB_c Y_o xez_1.2.2 xez_2.2.2 bRGB_o1.2.2 bRGB_o2.2.2 RGB_1.2.2 K n)

noncomputable def chromatic_adaptation_CIE1994 (XYZ_1 : Tri) (xy_o1 xy_o2 : ℝ × ℝ)
    (Y_o E_o1 E_o2 n : ℝ) : Tri :=
  let RGB_1 := XYZ_to_RGB_CIE1994 XYZ_1
  let xez_1 := intermediate_values xy_o1
  let xez_2 := intermediate_values xy_o2
  let RGB_o1 := effective_adapting_responses xez_1 Y_o E_o1
  let RGB_o2 := effective_adapting_responses xez_2 Y_o E_o2
  let bRGB_o1 := exponential_factors RGB_o1
  let bRGB_o2 := exponential_factors RGB_o2
  let K := K_coefficient xez_1 xez_2 bRGB_o1 bRGB_o2 Y_o n
  let RGB_2 := corresponding_colour RGB_1 xez_1 xez_2 bRGB_o1 bRGB_o2 Y_o K n
  RGB_to_XYZ_CIE1994 RGB_2

/-- The condition under which `chromatic_adaptation_CIE1994` issues its
usage warning: some `Y_o` component outside the recommended [18, 100]
domain (source lines 150-154). -/
def CIE1994UsageWarning (Y_o : ℝ) : Prop := Y_o < 18 ∨ 100 < Y_o

def CIE1994WarningText : String :=
  "Y_o luminance factor must be in [18, 100] domain, unpredictable results may occur!"

open Classical in
/-- `chromatic_adaptation_CIE1994` instrumented with the usage warnings it
emits: the warning check runs first, and the adaptation chain runs
unconditionally afterwards, exactly as in the source. -/
noncomputable def chromatic_adaptation_CIE1994_warned (XYZ_1 : Tri)
    (xy_o1 xy_o2 : ℝ × ℝ) (Y_o E_o1 E_o2 n : ℝ) : List String × Tri :=
  let warnings := if Y_o < 18 ∨ 100 < Y_o then [CIE1994WarningText] else []
  let RGB_1 := XYZ_to_RGB_CIE1994 XYZ_1
  let xez_1 := intermediate_values xy_o1
  let xez_2 := intermediate_values xy_o2
  let RGB_o1 := effective_adapting_responses xez_1 Y_o E_o1
  let RGB_o2 := effective_adapting_responses xez_2 Y_o E_o2
  let bRGB_o1 := exponential_factors RGB_o1
  let bRGB_o2 := exponential_factors RGB_o2
  let K := K_coefficient xez_1 xez_2 bRGB_o1 bRGB_o2 Y_o n
  let RGB_2 := corresponding_colour RGB_1 xez_1 xez_2 bRGB_o1 bRGB_o2 Y_o K n
  (warnings, RGB_to_XYZ_CIE1994 RGB_2)

/-! ## Scaled-integer interval arithmetic

Proof infrastructure for the numerical claim about
`chromatic_adaptation_CIE1994`: closed intervals whose endpoints are
integers denoting multiples of `1 / SCALE` with `SCALE = 10^20`, with
outward rounding through floor/ceiling division.  All operations are pure
integer programs, so concrete instances reduce by `decide`; each operation
has a soundness theorem (below) against the real-number semantics of the
embedding.  `exp` is computed by argument halving plus the 16-term Taylor
sum with the `Real.exp_bound` remainder; `log` by power-of-two range
reduction into `[1/2, 3/2]` plus the 40-term Mercator series with the
`Real.abs_log_sub_add_sum_range_le` remainder. -/

def SCALE : ℤ := 10 ^ 20

/-- Floor division (towards −∞) for a positive divisor. -/
def fdiv (a b : ℤ) : ℤ := Int.ediv a b

/-- Ceiling division for a positive divisor. -/
def cdiv (a b : ℤ) : ℤ := -Int.ediv (-a) b

structure ZI where
  lo : ℤ
  hi : ℤ
deriving DecidableEq

/-- `x` is contained in the scaled interval `I`. -/
def ZI.mem (I : ZI) (x : ℝ) : Prop :=
  (I.lo : ℝ) ≤ x * (SCALE : ℝ) ∧ x * (SCALE : ℝ) ≤ (I.hi : ℝ)

/-- The integer `n` as a (point) interval. -/
def ZI.ofInt (n : ℤ) : ZI := ⟨n * SCALE, n * SCALE⟩

/-- The decimal constant `n / 10^d` as a (point) interval, exact for
`d ≤ 20`. -/
def ZI.ofDec (n : ℤ) (d : ℕ) : ZI := ⟨n * 10 ^ (20 - d), n * 10 ^ (20 - d)⟩

def ZI.add (I J : ZI) : ZI := ⟨I.lo + J.lo, I.hi + J.hi⟩

def ZI.neg (I : ZI) : ZI := ⟨-I.hi, -I.lo⟩

def ZI.sub (I J : ZI) : ZI := I.add J.neg

def min4 (a b c d : ℤ) : ℤ := min (min a b) (min c d)

def max4 (a b c d : ℤ) : ℤ := max (max a b) (max c d)

def ZI.mul (I J : ZI) : ZI :=
  ⟨fdiv (min4 (I.lo * J.lo) (I.lo * J.hi) (I.hi * J.lo) (I.hi * J.hi)) SCALE,
   cdiv (max4 (I.lo * J.lo) (I.lo * J.hi) (I.hi * J.lo) (I.hi * J.hi)) SCALE⟩

/-- Interval quotient; sound when the divisor interval is positive
(`0 < J.lo`). -/
def ZI.div (I J : ZI) : ZI :=
  ⟨if 0 ≤ I.lo then fdiv (I.lo * SCALE) J.hi else fdiv (I.lo * SCALE) J.lo,
   if 0 ≤ I.hi then cdiv (I.hi * SCALE) J.lo else cdiv (I.hi * SCALE) J.hi⟩

/-- Multiplication by an integer constant (exact). -/
def zsmul (k : ℤ) (I : ZI) : ZI :=
  if 0 ≤ k then ⟨k * I.lo, k * I.hi⟩ else ⟨k * I.hi, k * I.lo⟩

/-- The running-term Taylor evaluation of `Σ_{j<i+f} x^j / j!` on an
interval: `t` contains `x^i / i!` and `sum` the partial sum below `i`. -/
def expSeriesGo (x : ZI) : ℕ → ℕ → ZI → ZI → ZI
  | 0, _, _, sum => sum
  | f + 1, i, t, sum =>
    expSeriesGo x f (i + 1) ((t.mul x).div (ZI.ofInt ((i : ℤ) + 1)))
      (sum.add t)

/-- The scaled `Real.exp_bound` remainder for 16 terms at `|x| ≤ 1`. -/
def EXP_ERR : ℤ := cdiv (17 * SCALE) ((Nat.factorial 16 : ℤ) * 16)

/-- `exp` on an interval inside `[-1, 1]`: Taylor sum plus remainder. -/
def ZI.expSmall (I : ZI) : ZI :=
  let s := expSeriesGo I 16 0 (ZI.ofInt 1) ⟨0, 0⟩
  ⟨s.lo - EXP_ERR, s.hi + EXP_ERR⟩

/-- `exp` on an arbitrary interval: halve the argument until it fits in
`[-1, 1]`, evaluate the Taylor sum there, square on the way back up. -/
def ZI.exp : ℕ → ZI → ZI
  | 0, I => ZI.expSmall I
  | f + 1, I =>
    if -SCALE ≤ I.lo ∧ I.hi ≤ SCALE then ZI.expSmall I
    else
      let J := ZI.exp f ⟨fdiv I.lo 2, cdiv I.hi 2⟩
      J.mul J

/-- The running-power evaluation of `Σ_{j<i+f} x^(j+1) / (j+1)` on an
interval: `p` contains `x^(i+1)` and `sum` the partial sum below `i`. -/
def logSeriesGo (x : ZI) : ℕ → ℕ → ZI → ZI → ZI
  | 0, _, _, sum => sum
  | f + 1, i, p, sum =>
    logSeriesGo x f (i + 1) (p.mul x)
      (sum.add (p.div (ZI.ofInt ((i : ℤ) + 1))))

/-- The scaled Mercator remainder `(1/2)^41 / (1 - 1/2)` for 40 terms at
`|x| ≤ 1/2`. -/
def LOG_ERR : ℤ := cdiv SCALE (2 ^ 40)

/-- `log 2 ∈ [0.6931471803, 0.6931471808]` (`Real.log_two_gt_d9`,
`Real.log_two_lt_d9`). -/
def LN2 : ZI := ⟨69314718030000000000, 69314718080000000000⟩

/-- `π` to twenty decimal digits (`Real.pi_gt_d20`, `Real.pi_lt_d20`). -/
def PI_Z : ZI := ⟨314159265358979323846, 314159265358979323847⟩

/-- Power-of-two range reduction for the logarithm: scales the interval
into `[1/2, 3/2]` (with outward rounding) while counting the exponent. -/
def logReduceGo : ℕ → ℤ → ZI → ℤ × ZI
  | 0, k, I => (k, I)
  | f + 1, k, I =>
    if 3 * SCALE < 2 * I.hi then
      logReduceGo f (k + 1) ⟨fdiv I.lo 2, cdiv I.hi 2⟩
    else if 2 * I.lo < SCALE then logReduceGo f (k - 1) ⟨2 * I.lo, 2 * I.hi⟩
    else (k, I)

/-- `log` on a positive interval: `log v = k log 2 + log (1 - x)` with
`x = 1 - v / 2^k` summed by the Mercator series. -/
def ZI.log (I : ZI) : ZI :=
  let r := logReduceGo 200 0 I
  let x : ZI := ⟨SCALE - r.2.hi, SCALE - r.2.lo⟩
  let s := logSeriesGo x 40 0 x ⟨0, 0⟩
  (zsmul r.1 LN2).add (s.neg.add ⟨-LOG_ERR, LOG_ERR⟩)

/-- The decidable conditions under which the range reduction of `ZI.log`
landed inside `[1/2, 3/2]`. -/
def ZI.logOK (I : ZI) : Prop :=
  SCALE ≤ 2 * (logReduceGo 200 0 I).2.lo ∧
    2 * (logReduceGo 200 0 I).2.hi ≤ 3 * SCALE

instance (I : ZI) : Decidable (ZI.logOK I) := by
  unfold ZI.logOK
  infer_instance

/-- `spow` on intervals for a positive base: `x^p = exp (p log x)`. -/
def ZI.spowZ (b e : ZI) (f : ℕ) : ZI := ZI.exp f (e.mul b.log)

/-! ## Concrete inputs used by the verified properties -/

/-- The ten-knot test signal `Signal(range=[10..100 step 10],
domain=[0..9])` of `tests/test_signal.py`. -/
def signalTen : Signal :=
  ⟨[(0, 10), (1, 20), (2, 30), (3, 40), (4, 50),
    (5, 60), (6, 70), (7, 80), (8, 90), (9, 100)]⟩

/-- Colour-matching functions that are 1 in every channel at every
wavelength (only the value at 555 nm matters for the impulse class of
inputs). -/
def cmfsOnes : ℚ → ℚ × ℚ × ℚ := fun _ => (1, 1, 1)

/-- The unit illuminant (`sd_ones`), the default illuminant of
`sd_to_XYZ_integration`. -/
def illuminantOnes : ℚ → ℚ := fun _ => 1

/-- The cache-mutation experiment of
`test_lagrange_coefficients_ASTME2022`: call, mutate the returned array
in place (overwrite it with `m`), call again with the same arguments;
returns the contents the first call handed out and the contents the second
call hands out. -/
def cacheMutationExperiment (st : LagrangeCacheState) (interval : ℕ)
    (boundary : Bool) (m : List ℚ) : List ℚ × List ℚ :=
  let r1 := lagrange_coefficients_ASTME2022 st interval boundary
  let firstResult := heapRead r1.2.heap r1.1
  let mutated : LagrangeCacheState := ⟨heapWrite r1.2.heap r1.1 m, r1.2.cache⟩
  let r2 := lagrange_coefficients_ASTME2022 mutated interval boundary
  (firstResult, heapRead r2.2.heap r2.1)

/-! # Theorems -/

/-! ## Soundness of the scaled-integer interval arithmetic -/

theorem SCALE_pos : (0 : ℤ) < SCALE := by norm_num [SCALE]

theorem SCALE_posR : (0 : ℝ) < (SCALE : ℝ) := by
  exact_mod_cast SCALE_pos

theorem fdiv_le (a b : ℤ) (hb : 0 < b) : ((fdiv a b : ℤ) : ℝ) ≤ (a : ℝ) / b := by
  have hbR : (0 : ℝ) < (b : ℝ) := by exact_mod_cast hb
  rw [le_div_iff₀ hbR]
  have h1 : b * Int.ediv a b + Int.emod a b = a := Int.ediv_add_emod a b
  have h2 : 0 ≤ Int.emod a b := Int.emod_nonneg a (ne_of_gt hb)
  have h3 : b * Int.ediv a b ≤ a := by linarith
  have h4 : Int.ediv a b * b ≤ a := by rw [mul_comm]; exact h3
  exact_mod_cast h4

theorem le_cdiv (a b : ℤ) (hb : 0 < b) : (a : ℝ) / b ≤ ((cdiv a b : ℤ) : ℝ) := by
  have h := fdiv_le (-a) b hb
  have hbR : (0 : ℝ) < (b : ℝ) := by exact_mod_cast hb
  rw [show ((-a : ℤ) : ℝ) = -(a : ℝ) by push_cast; ring] at h
  rw [neg_div] at h
  simp only [fdiv] at h
  have h2 : (a : ℝ) / b ≤ -(((-a).ediv b : ℤ) : ℝ) := by linarith
  rw [cdiv]
  push_cast
  push_cast at h2
  linarith

theorem ZI.mem_ofInt (n : ℤ) : (ZI.ofInt n).mem (n : ℝ) := by
  have h : ((n * SCALE : ℤ) : ℝ) = (n : ℝ) * (SCALE : ℝ) := by push_cast; ring
  exact ⟨le_of_eq h, le_of_eq h.symm⟩

theorem ZI.mem_ofDec (n : ℤ) (d : ℕ) (hd : d ≤ 20) :
    (ZI.ofDec n d).mem ((n : ℝ) / 10 ^ d) := by
  have h10 : ((10 : ℝ) ^ d) ≠ 0 := by positivity
  have key : ((n * 10 ^ (20 - d) : ℤ) : ℝ) = (n : ℝ) / 10 ^ d * (SCALE : ℝ) := by
    push_cast
    rw [div_mul_eq_mul_div, show (SCALE : ℝ) = 10 ^ 20 by norm_num [SCALE]]
    rw [show (20 : ℕ) = (20 - d) + d from (Nat.sub_add_cancel hd).symm, pow_add]
    field_simp
    ring
  exact ⟨le_of_eq key, le_of_eq key.symm⟩

theorem ZI.mem_add {I J : ZI} {x y : ℝ} (hx : I.mem x) (hy : J.mem y) :
    (I.add J).mem (x + y) := by
  obtain ⟨h1, h2⟩ := hx
  obtain ⟨h3, h4⟩ := hy
  constructor
  · show ((I.lo + J.lo : ℤ) : ℝ) ≤ (x + y) * SCALE
    push_cast
    nlinarith
  · show (x + y) * SCALE ≤ ((I.hi + J.hi : ℤ) : ℝ)
    push_cast
    nlinarith

theorem ZI.mem_neg {I : ZI} {x : ℝ} (hx : I.mem x) : (I.neg).mem (-x) := by
  obtain ⟨h1, h2⟩ := hx
  constructor
  · show ((-I.hi : ℤ) : ℝ) ≤ -x * SCALE
    push_cast
    nlinarith
  · show -x * SCALE ≤ ((-I.lo : ℤ) : ℝ)
    push_cast
    nlinarith

theorem ZI.mem_sub {I J : ZI} {x y : ℝ} (hx : I.mem x) (hy : J.mem y) :
    (I.sub J).mem (x - y) := by
  have h := ZI.mem_add hx (ZI.mem_neg hy)
  rw [show x - y = x + -y by ring]
  exact h

theorem ZI.mem_zsmul {I : ZI} {x : ℝ} (k : ℤ) (hx : I.mem x) :
    (zsmul k I).mem ((k : ℝ) * x) := by
  obtain ⟨h1, h2⟩ := hx
  rcases le_or_lt 0 k with hk | hk
  · have hkR : (0 : ℝ) ≤ (k : ℝ) := by exact_mod_cast hk
    rw [zsmul, if_pos hk]
    constructor
    · show ((k * I.lo : ℤ) : ℝ) ≤ (k : ℝ) * x * SCALE
      push_cast
      calc (k : ℝ) * (I.lo : ℝ) ≤ (k : ℝ) * (x * SCALE) :=
            mul_le_mul_of_nonneg_left h1 hkR
        _ = (k : ℝ) * x * SCALE := by ring
    · show (k : ℝ) * x * SCALE ≤ ((k * I.hi : ℤ) : ℝ)
      push_cast
      calc (k : ℝ) * x * SCALE = (k : ℝ) * (x * SCALE) := by ring
        _ ≤ (k : ℝ) * (I.hi : ℝ) := mul_le_mul_of_nonneg_left h2 hkR
  · have hkR : (k : ℝ) ≤ 0 := by exact_mod_cast le_of_lt hk
    rw [zsmul, if_neg (not_le.mpr hk)]
    constructor
    · show ((k * I.hi : ℤ) : ℝ) ≤ (k : ℝ) * x * SCALE
      push_cast
      calc (k : ℝ) * (I.hi : ℝ) ≤ (k : ℝ) * (x * SCALE) :=
            mul_le_mul_of_nonpos_left h2 hkR
        _ = (k : ℝ) * x * SCALE := by ring
    · show (k : ℝ) * x * SCALE ≤ ((k * I.lo : ℤ) : ℝ)
      push_cast
      calc (k : ℝ) * x * SCALE = (k : ℝ) * (x * SCALE) := by ring
        _ ≤ (k : ℝ) * (I.lo : ℝ) := mul_le_mul_of_nonpos_left h1 hkR

theorem mul_bounds {a b c d p q : ℝ} (hap : a ≤ p) (hpb : p ≤ b)
    (hcq : c ≤ q) (hqd : q ≤ d) :
    min (min (a * c) (a * d)) (min (b * c) (b * d)) ≤ p * q ∧
      p * q ≤ max (max (a * c) (a * d)) (max (b * c) (b * d)) := by
  constructor
  · rcases le_or_lt 0 p with hp | hp
    · have h1 : p * c ≤ p * q := mul_le_mul_of_nonneg_left hcq hp
      rcases le_or_lt 0 c with hc | hc
      · have h2 : a * c ≤ p * c := mul_le_mul_of_nonneg_right hap hc
        exact ((min_le_left _ _).trans (min_le_left _ _)).trans (h2.trans h1)
      · have h2 : b * c ≤ p * c := mul_le_mul_of_nonpos_right hpb hc.le
        exact ((min_le_right _ _).trans (min_le_left _ _)).trans (h2.trans h1)
    · have h1 : p * d ≤ p * q := mul_le_mul_of_nonpos_left hqd hp.le
      rcases le_or_lt 0 d with hd | hd
      · have h2 : a * d ≤ p * d := mul_le_mul_of_nonneg_right hap hd
        exact ((min_le_left _ _).trans (min_le_right _ _)).trans (h2.trans h1)
      · have h2 : b * d ≤ p * d := mul_le_mul_of_nonpos_right hpb hd.le
        exact ((min_le_right _ _).trans (min_le_right _ _)).trans (h2.trans h1)
  · rcases le_or_lt 0 p with hp | hp
    · have h1 : p * q ≤ p * d := mul_le_mul_of_nonneg_left hqd hp
      rcases le_or_lt 0 d with hd | hd
      · have h2 : p * d ≤ b * d := mul_le_mul_of_nonneg_right hpb hd
        exact (h1.trans h2).trans ((le_max_right _ _).trans (le_max_right _ _))
      · have h2 : p * d ≤ a * d := mul_le_mul_of_nonpos_right hap hd.le
        exact (h1.trans h2).trans ((le_max_right _ _).trans (le_max_left _ _))
    · have h1 : p * q ≤ p * c := mul_le_mul_of_nonpos_left hcq hp.le
      rcases le_or_lt 0 c with hc | hc
      · have h2 : p * c ≤ b * c := mul_le_mul_of_nonneg_right hpb hc
        exact (h1.trans h2).trans ((le_max_left _ _).trans (le_max_right _ _))
      · have h2 : p * c ≤ a * c := mul_le_mul_of_nonpos_right hap hc.le
        exact (h1.trans h2).trans ((le_max_left _ _).trans (le_max_left _ _))

theorem ZI.mem_mul {I J : ZI} {x y : ℝ} (hx : I.mem x) (hy : J.mem y) :
    (I.mul J).mem (x * y) := by
  obtain ⟨hx1, hx2⟩ := hx
  obtain ⟨hy1, hy2⟩ := hy
  have hb := mul_bounds hx1 hx2 hy1 hy2
  have hmin : ((min4 (I.lo * J.lo) (I.lo * J.hi) (I.hi * J.lo)
      (I.hi * J.hi) : ℤ) : ℝ) ≤ x * SCALE * (y * SCALE) := by
    calc ((min4 (I.lo * J.lo) (I.lo * J.hi) (I.hi * J.lo)
        (I.hi * J.hi) : ℤ) : ℝ)
        = min (min ((I.lo : ℝ) * J.lo) ((I.lo : ℝ) * J.hi))
            (min ((I.hi : ℝ) * J.lo) ((I.hi : ℝ) * J.hi)) := by
          simp [min4]
      _ ≤ x * SCALE * (y * SCALE) := hb.1
  have hmax : x * SCALE * (y * SCALE) ≤ ((max4 (I.lo * J.lo) (I.lo * J.hi)
      (I.hi * J.lo) (I.hi * J.hi) : ℤ) : ℝ) := by
    calc x * SCALE * (y * SCALE)
        ≤ max (max ((I.lo : ℝ) * J.lo) ((I.lo : ℝ) * J.hi))
            (max ((I.hi : ℝ) * J.lo) ((I.hi : ℝ) * J.hi)) := hb.2
      _ = ((max4 (I.lo * J.lo) (I.lo * J.hi) (I.hi * J.lo)
            (I.hi * J.hi) : ℤ) : ℝ) := by
          simp [max4]
  have hS := SCALE_posR
  constructor
  · have h1 := fdiv_le (min4 (I.lo * J.lo) (I.lo * J.hi) (I.hi * J.lo)
      (I.hi * J.hi)) SCALE SCALE_pos
    have h2 : ((min4 (I.lo * J.lo) (I.lo * J.hi) (I.hi * J.lo)
        (I.hi * J.hi) : ℤ) : ℝ) / SCALE ≤ x * y * SCALE := by
      rw [div_le_iff hS]
      calc ((min4 (I.lo * J.lo) (I.lo * J.hi) (I.hi * J.lo)
          (I.hi * J.hi) : ℤ) : ℝ)
          ≤ x * SCALE * (y * SCALE) := hmin
        _ = x * y * SCALE * SCALE := by ring
    exact h1.trans h2
  · have h1 := le_cdiv (max4 (I.lo * J.lo) (I.lo * J.hi) (I.hi * J.lo)
      (I.hi * J.hi)) SCALE SCALE_pos
    have h2 : x * y * SCALE ≤ ((max4 (I.lo * J.lo) (I.lo * J.hi)
        (I.hi * J.lo) (I.hi * J.hi) : ℤ) : ℝ) / SCALE := by
      rw [le_div_iff hS]
      calc x * y * SCALE * SCALE = x * SCALE * (y * SCALE) := by ring
        _ ≤ _ := hmax
    exact h2.trans h1

theorem ZI.mem_div {I J : ZI} {x y : ℝ} (hx : I.mem x) (hy : J.mem y)
    (hJ : 0 < J.lo) : (I.div J).mem (x / y) := by
  obtain ⟨hx1, hx2⟩ := hx
  obtain ⟨hy1, hy2⟩ := hy
  have hS := SCALE_posR
  have hJloR : (0 : ℝ) < (J.lo : ℝ) := by exact_mod_cast hJ
  have hyS : (0 : ℝ) < y * SCALE := lt_of_lt_of_le hJloR hy1
  have hy0 : (0 : ℝ) < y := by nlinarith
  have hJhiR : (0 : ℝ) < (J.hi : ℝ) := lt_of_lt_of_le hyS hy2
  have hJhi : (0 : ℤ) < J.hi := by exact_mod_cast hJhiR
  have hkey : x / y * (SCALE : ℝ) = x * SCALE * SCALE / (y * SCALE) := by
    field_simp
    ring
  constructor
  · show ((if 0 ≤ I.lo then fdiv (I.lo * SCALE) J.hi
      else fdiv (I.lo * SCALE) J.lo : ℤ) : ℝ) ≤ x / y * SCALE
    rw [hkey]
    by_cases hI : 0 ≤ I.lo
    · rw [if_pos hI]
      have hIloR : (0 : ℝ) ≤ (I.lo : ℝ) := by exact_mod_cast hI
      refine (fdiv_le _ _ hJhi).trans ?_
      push_cast
      exact div_le_div (by nlinarith) (by nlinarith) hyS hy2
    · rw [if_neg hI]
      have hIloR : (I.lo : ℝ) ≤ 0 :=
        le_of_lt (by exact_mod_cast not_le.mp hI)
      refine (fdiv_le _ _ hJ).trans ?_
      push_cast
      have step1 : (I.lo : ℝ) * SCALE / (J.lo : ℝ) ≤
          (I.lo : ℝ) * SCALE / (y * SCALE) := by
        rw [div_eq_mul_inv, div_eq_mul_inv]
        refine mul_le_mul_of_nonpos_left ?_ (by nlinarith)
        exact inv_le_inv_of_le hJloR hy1
      have step2 : (I.lo : ℝ) * SCALE / (y * SCALE) ≤
          x * SCALE * SCALE / (y * SCALE) :=
        (div_le_div_right hyS).mpr (by nlinarith)
      exact step1.trans step2
  · show x / y * SCALE ≤ ((if 0 ≤ I.hi then cdiv (I.hi * SCALE) J.lo
      else cdiv (I.hi * SCALE) J.hi : ℤ) : ℝ)
    rw [hkey]
    by_cases hI : 0 ≤ I.hi
    · rw [if_pos hI]
      have hIhiR : (0 : ℝ) ≤ (I.hi : ℝ) := by exact_mod_cast hI
      refine le_trans ?_ (le_cdiv _ _ hJ)
      push_cast
      exact div_le_div (by nlinarith) (by nlinarith) hJloR hy1
    · rw [if_neg hI]
      have hIhiR : (I.hi : ℝ) ≤ 0 :=
        le_of_lt (by exact_mod_cast not_le.mp hI)
      refine le_trans ?_ (le_cdiv _ _ hJhi)
      push_cast
      have step2 : x * SCALE * SCALE / (y * SCALE) ≤
          (I.hi : ℝ) * SCALE / (y * SCALE) :=
        (div_le_div_right hyS).mpr (by nlinarith)
      have step1 : (I.hi : ℝ) * SCALE / (y * SCALE) ≤
          (I.hi : ℝ) * SCALE / (J.hi : ℝ) := by
        rw [div_eq_mul_inv, div_eq_mul_inv]
        refine mul_le_mul_of_nonpos_left ?_ (by nlinarith)
        exact inv_le_inv_of_le hyS hy2
      exact step2.trans step1

theorem ZI.mem_halve {I : ZI} {x : ℝ} (hx : I.mem x) :
    (⟨fdiv I.lo 2, cdiv I.hi 2⟩ : ZI).mem (x / 2) := by
  obtain ⟨h1, h2⟩ := hx
  constructor
  · show ((fdiv I.lo 2 : ℤ) : ℝ) ≤ x / 2 * SCALE
    refine (fdiv_le I.lo 2 (by norm_num)).trans ?_
    push_cast
    linarith
  · show x / 2 * SCALE ≤ ((cdiv I.hi 2 : ℤ) : ℝ)
    refine le_trans ?_ (le_cdiv I.hi 2 (by norm_num))
    push_cast
    linarith

theorem expSeriesGo_mem (xI : ZI) (x : ℝ) (hx : xI.mem x) :
    ∀ (f i : ℕ) (t sum : ZI),
    t.mem (x ^ i / (Nat.factorial i : ℝ)) →
    sum.mem (∑ j in Finset.range i, x ^ j / (Nat.factorial j : ℝ)) →
    (expSeriesGo xI f i t sum).mem
      (∑ j in Finset.range (i + f), x ^ j / (Nat.factorial j : ℝ)) := by
  intro f
  induction f with
  | zero =>
    intro i t sum _ hsum
    simpa using hsum
  | succ f ih =>
    intro i t sum ht hsum
    have hdivpos : (0 : ℤ) < (ZI.ofInt ((i : ℤ) + 1)).lo := by
      show (0 : ℤ) < ((i : ℤ) + 1) * SCALE
      exact mul_pos (by positivity) SCALE_pos
    have hterm := ZI.mem_div (ZI.mem_mul ht hx)
      (ZI.mem_ofInt ((i : ℤ) + 1)) hdivpos
    have hval : x ^ i / (Nat.factorial i : ℝ) * x / (((i : ℤ) + 1 : ℤ) : ℝ)
        = x ^ (i + 1) / (Nat.factorial (i + 1) : ℝ) := by
      rw [Nat.factorial_succ]
      push_cast
      rw [pow_succ]
      rw [mul_comm ((i : ℝ) + 1) (Nat.factorial i : ℝ)]
      rw [← div_div, div_mul_eq_mul_div]
    rw [hval] at hterm
    have hsum2 := ZI.mem_add hsum ht
    rw [← Finset.sum_range_succ] at hsum2
    show (expSeriesGo xI f (i + 1) _ _).mem _
    have hr : i + (f + 1) = (i + 1) + f := by omega
    rw [hr]
    exact ih (i + 1) _ _ hterm hsum2

theorem logSeriesGo_mem (xI : ZI) (x : ℝ) (hx : xI.mem x) :
    ∀ (f i : ℕ) (p sum : ZI),
    p.mem (x ^ (i + 1)) →
    sum.mem (∑ j in Finset.range i, x ^ (j + 1) / ((j : ℝ) + 1)) →
    (logSeriesGo xI f i p sum).mem
      (∑ j in Finset.range (i + f), x ^ (j + 1) / ((j : ℝ) + 1)) := by
  intro f
  induction f with
  | zero =>
    intro i p sum _ hsum
    simpa using hsum
  | succ f ih =>
    intro i p sum hp hsum
    have hdivpos : (0 : ℤ) < (ZI.ofInt ((i : ℤ) + 1)).lo := by
      show (0 : ℤ) < ((i : ℤ) + 1) * SCALE
      exact mul_pos (by positivity) SCALE_pos
    have hterm := ZI.mem_div hp (ZI.mem_ofInt ((i : ℤ) + 1)) hdivpos
    have hval : x ^ (i + 1) / (((i : ℤ) + 1 : ℤ) : ℝ)
        = x ^ (i + 1) / ((i : ℝ) + 1) := by
      push_cast
      rfl
    rw [hval] at hterm
    have hsum2 := ZI.mem_add hsum hterm
    rw [← Finset.sum_range_succ] at hsum2
    have hp2 := ZI.mem_mul hp hx
    rw [← pow_succ] at hp2
    show (logSeriesGo xI f (i + 1) _ _).mem _
    have hr : i + (f + 1) = (i + 1) + f := by omega
    rw [hr]
    exact ih (i + 1) _ _ hp2 hsum2

theorem ZI.mem_expSmall {I : ZI} {x : ℝ} (hx : I.mem x)
    (hlo : -SCALE ≤ I.lo) (hhi : I.hi ≤ SCALE) :
    (I.expSmall).mem (Real.exp x) := by
  have hS := SCALE_posR
  have h1 := hx.1
  have h2 := hx.2
  have hxabs : |x| ≤ 1 := by
    rw [abs_le]
    have hcl : (-(SCALE : ℝ)) ≤ (I.lo : ℝ) := by exact_mod_cast hlo
    have hch : (I.hi : ℝ) ≤ (SCALE : ℝ) := by exact_mod_cast hhi
    constructor
    · have hm : (-1 : ℝ) * SCALE ≤ x * SCALE := by linarith
      exact (mul_le_mul_right hS).mp hm
    · have hm : x * SCALE ≤ (1 : ℝ) * SCALE := by linarith
      exact (mul_le_mul_right hS).mp hm
  have ht0 : (ZI.ofInt 1).mem (x ^ 0 / (Nat.factorial 0 : ℝ)) := by
    simpa using ZI.mem_ofInt 1
  have hs0 : (⟨0, 0⟩ : ZI).mem
      (∑ j in Finset.range 0, x ^ j / (Nat.factorial j : ℝ)) := by
    constructor <;> simp [ZI.mem]
  have hs := expSeriesGo_mem I x hx 16 0 (ZI.ofInt 1) ⟨0, 0⟩ ht0 hs0
  rw [show (0 + 16 : ℕ) = 16 from rfl] at hs
  have hbound := Real.exp_bound hxabs (by norm_num : 0 < 16)
  have herr : |x| ^ 16 * ((16 : ℕ).succ / ((Nat.factorial 16 : ℝ) * 16))
      ≤ (EXP_ERR : ℝ) / SCALE := by
    have hfacpos : (0 : ℝ) < (Nat.factorial 16 : ℝ) * 16 := by positivity
    have hx16 : |x| ^ 16 ≤ 1 := pow_le_one₀ (abs_nonneg x) hxabs
    have hq : ((16 : ℕ).succ / ((Nat.factorial 16 : ℝ) * 16)) ≥ 0 := by positivity
    have hstep : |x| ^ 16 * ((16 : ℕ).succ / ((Nat.factorial 16 : ℝ) * 16))
        ≤ (16 : ℕ).succ / ((Nat.factorial 16 : ℝ) * 16) := by
      nlinarith
    refine hstep.trans ?_
    have hc : ((17 * SCALE : ℤ) : ℝ) / (((Nat.factorial 16 : ℤ) * 16 : ℤ) : ℝ)
        ≤ (EXP_ERR : ℝ) :=
      le_cdiv (17 * SCALE) ((Nat.factorial 16 : ℤ) * 16) (by positivity)
    rw [show ((17 * SCALE : ℤ) : ℝ) = 17 * (SCALE : ℝ) by push_cast; ring,
      show (((Nat.factorial 16 : ℤ) * 16 : ℤ) : ℝ)
        = (Nat.factorial 16 : ℝ) * 16 by push_cast; ring] at hc
    rw [div_le_div_iff hfacpos hS]
    rw [div_le_iff₀ hfacpos] at hc
    have h17 : ((Nat.succ 16 : ℕ) : ℝ) = 17 := by norm_num
    rw [h17]
    linarith
  have habs : |Real.exp x * SCALE -
      (∑ j in Finset.range 16, x ^ j / (Nat.factorial j : ℝ)) * SCALE|
      ≤ (EXP_ERR : ℝ) := by
    have hmul : |Real.exp x -
        ∑ j in Finset.range 16, x ^ j / (Nat.factorial j : ℝ)| * SCALE
        ≤ ((EXP_ERR : ℝ) / SCALE) * SCALE :=
      mul_le_mul_of_nonneg_right (hbound.trans herr) hS.le
    rw [div_mul_cancel₀ _ (ne_of_gt hS)] at hmul
    rw [← sub_mul, abs_mul, abs_of_pos hS]
    exact hmul
  obtain ⟨hsl, hsh⟩ := hs
  obtain ⟨habs1, habs2⟩ := abs_le.mp habs
  constructor
  · show (((expSeriesGo I 16 0 (ZI.ofInt 1) ⟨0, 0⟩).lo - EXP_ERR : ℤ) : ℝ)
      ≤ Real.exp x * SCALE
    push_cast
    linarith
  · show Real.exp x * SCALE
      ≤ (((expSeriesGo I 16 0 (ZI.ofInt 1) ⟨0, 0⟩).hi + EXP_ERR : ℤ) : ℝ)
    push_cast
    linarith

theorem ZI.mem_exp : ∀ (f : ℕ) {I : ZI} {x : ℝ}, I.mem x →
    -(2 ^ f) * SCALE ≤ I.lo → I.hi ≤ 2 ^ f * SCALE →
    (ZI.exp f I).mem (Real.exp x) := by
  intro f
  induction f with
  | zero =>
    intro I x hx hlo hhi
    exact ZI.mem_expSmall hx (by simpa using hlo) (by simpa using hhi)
  | succ f ih =>
    intro I x hx hlo hhi
    show (if -SCALE ≤ I.lo ∧ I.hi ≤ SCALE then I.expSmall
      else
        (ZI.exp f ⟨fdiv I.lo 2, cdiv I.hi 2⟩).mul
          (ZI.exp f ⟨fdiv I.lo 2, cdiv I.hi 2⟩)).mem (Real.exp x)
    by_cases hc : -SCALE ≤ I.lo ∧ I.hi ≤ SCALE
    · rw [if_pos hc]
      exact ZI.mem_expSmall hx hc.1 hc.2
    · rw [if_neg hc]
      have hhalf := ZI.mem_halve hx
      have hlo2 : -(2 ^ f) * SCALE ≤ fdiv I.lo 2 := by
        have hmono : fdiv (-(2 ^ (f + 1)) * SCALE) 2 ≤ fdiv I.lo 2 :=
          Int.ediv_le_ediv (by norm_num) hlo
        have hexact : fdiv (-(2 ^ (f + 1)) * SCALE) 2 = -(2 ^ f) * SCALE := by
          show Int.ediv _ _ = _
          rw [show -(2 ^ (f + 1) : ℤ) * SCALE = 2 * (-(2 ^ f) * SCALE) by ring]
          exact Int.mul_ediv_cancel_left _ (by norm_num)
        rw [← hexact]
        exact hmono
      have hhi2 : cdiv I.hi 2 ≤ 2 ^ f * SCALE := by
        have hmono : fdiv (-(2 ^ (f + 1) * SCALE)) 2 ≤ fdiv (-I.hi) 2 :=
          Int.ediv_le_ediv (by norm_num) (by linarith)
        have hexact : fdiv (-(2 ^ (f + 1) * SCALE)) 2 = -(2 ^ f * SCALE) := by
          show Int.ediv _ _ = _
          rw [show -(2 ^ (f + 1) * SCALE : ℤ) = 2 * -(2 ^ f * SCALE) by ring]
          exact Int.mul_ediv_cancel_left _ (by norm_num)
        rw [hexact] at hmono
        show -Int.ediv (-I.hi) 2 ≤ 2 ^ f * SCALE
        have : fdiv (-I.hi) 2 = Int.ediv (-I.hi) 2 := rfl
        omega
      have hJ := ih hhalf hlo2 hhi2
      have hmul := ZI.mem_mul hJ hJ
      have hexp2 : Real.exp (x / 2) * Real.exp (x / 2) = Real.exp x := by
        rw [← Real.exp_add]
        norm_num
      rw [hexp2] at hmul
      exact hmul

theorem logReduceGo_mem : ∀ (f : ℕ) (k : ℤ) (I : ZI) (x : ℝ), I.mem x →
    ((logReduceGo f k I).2).mem
      (x * (2 : ℝ) ^ (k - (logReduceGo f k I).1)) := by
  intro f
  induction f with
  | zero =>
    intro k I x hx
    show I.mem (x * (2 : ℝ) ^ (k - k))
    simpa using hx
  | succ f ih =>
    intro k I x hx
    simp only [logReduceGo]
    split_ifs with h1 h2
    · have hhalf := ZI.mem_halve hx
      have hrec := ih (k + 1) ⟨fdiv I.lo 2, cdiv I.hi 2⟩ (x / 2) hhalf
      have hz : x / 2 * (2 : ℝ) ^
            ((k + 1) - (logReduceGo f (k + 1) ⟨fdiv I.lo 2, cdiv I.hi 2⟩).1)
          = x * (2 : ℝ) ^
            (k - (logReduceGo f (k + 1) ⟨fdiv I.lo 2, cdiv I.hi 2⟩).1) := by
        rw [show (k + 1) - (logReduceGo f (k + 1)
            ⟨fdiv I.lo 2, cdiv I.hi 2⟩).1
          = (k - (logReduceGo f (k + 1) ⟨fdiv I.lo 2, cdiv I.hi 2⟩).1) + 1
          by ring]
        rw [zpow_add_one₀ (two_ne_zero)]
        ring
      rw [hz] at hrec
      exact hrec
    · have hdouble : (⟨2 * I.lo, 2 * I.hi⟩ : ZI).mem (2 * x) := by
        obtain ⟨hl, hh⟩ := hx
        constructor
        · show ((2 * I.lo : ℤ) : ℝ) ≤ 2 * x * SCALE
          push_cast
          linarith
        · show 2 * x * SCALE ≤ ((2 * I.hi : ℤ) : ℝ)
          push_cast
          linarith
      have hrec := ih (k - 1) ⟨2 * I.lo, 2 * I.hi⟩ (2 * x) hdouble
      have hz : 2 * x * (2 : ℝ) ^
            ((k - 1) - (logReduceGo f (k - 1) ⟨2 * I.lo, 2 * I.hi⟩).1)
          = x * (2 : ℝ) ^
            (k - (logReduceGo f (k - 1) ⟨2 * I.lo, 2 * I.hi⟩).1) := by
        rw [show k - (logReduceGo f (k - 1) ⟨2 * I.lo, 2 * I.hi⟩).1
          = ((k - 1) - (logReduceGo f (k - 1) ⟨2 * I.lo, 2 * I.hi⟩).1) + 1
          by ring]
        rw [zpow_add_one₀ (two_ne_zero)]
        ring
      rw [hz] at hrec
      exact hrec
    · show I.mem (x * (2 : ℝ) ^ (k - k))
      simpa using hx

theorem mem_LN2 : LN2.mem (Real.log 2) := by
  have hgt := Real.log_two_gt_d9
  have hlt := Real.log_two_lt_d9
  have hS : (SCALE : ℝ) = 10 ^ 20 := by norm_num [SCALE]
  constructor
  · show ((69314718030000000000 : ℤ) : ℝ) ≤ Real.log 2 * SCALE
    rw [hS]
    push_cast
    nlinarith
  · show Real.log 2 * SCALE ≤ ((69314718080000000000 : ℤ) : ℝ)
    rw [hS]
    push_cast
    nlinarith

theorem mem_PI : PI_Z.mem Real.pi := by
  have hgt := Real.pi_gt_d20
  have hlt := Real.pi_lt_d20
  have hS : (SCALE : ℝ) = 10 ^ 20 := by norm_num [SCALE]
  constructor
  · show ((314159265358979323846 : ℤ) : ℝ) ≤ Real.pi * SCALE
    rw [hS]
    push_cast
    nlinarith
  · show Real.pi * SCALE ≤ ((314159265358979323847 : ℤ) : ℝ)
    rw [hS]
    push_cast
    nlinarith

theorem ZI.mem_log {I : ZI} {x : ℝ} (hx : I.mem x) (hpos : 0 < I.lo)
    (hok : I.logOK) : (I.log).mem (Real.log x) := by
  obtain ⟨hok1, hok2⟩ := hok
  have hS := SCALE_posR
  have hx0 : (0 : ℝ) < x := by
    have h1 := hx.1
    have h0 : (0 : ℝ) < (I.lo : ℝ) := by exact_mod_cast hpos
    nlinarith
  have hm' := logReduceGo_mem 200 0 I x hx
  have hmpos : (0 : ℝ) < x * (2 : ℝ) ^ ((0 : ℤ) - (logReduceGo 200 0 I).1) :=
    mul_pos hx0 (zpow_pos (by norm_num) _)
  have hmlo : 1 / 2 ≤ x * (2 : ℝ) ^ ((0 : ℤ) - (logReduceGo 200 0 I).1) := by
    have h1 := hm'.1
    have hc : (SCALE : ℝ) ≤ 2 * ((logReduceGo 200 0 I).2.lo : ℝ) := by
      exact_mod_cast hok1
    nlinarith
  have hmhi : x * (2 : ℝ) ^ ((0 : ℤ) - (logReduceGo 200 0 I).1) ≤ 3 / 2 := by
    have h2 := hm'.2
    have hc : 2 * ((logReduceGo 200 0 I).2.hi : ℝ) ≤ 3 * (SCALE : ℝ) := by
      exact_mod_cast hok2
    nlinarith
  set m : ℝ := x * (2 : ℝ) ^ ((0 : ℤ) - (logReduceGo 200 0 I).1) with hmdef
  have hyabs : |1 - m| ≤ 1 / 2 := by
    rw [abs_le]
    constructor <;> linarith
  have hylt : |1 - m| < 1 := lt_of_le_of_lt hyabs (by norm_num)
  have hyI : (⟨SCALE - (logReduceGo 200 0 I).2.hi,
      SCALE - (logReduceGo 200 0 I).2.lo⟩ : ZI).mem (1 - m) := by
    obtain ⟨hm1, hm2⟩ := hm'
    constructor
    · show ((SCALE - (logReduceGo 200 0 I).2.hi : ℤ) : ℝ) ≤ (1 - m) * SCALE
      push_cast
      nlinarith
    · show (1 - m) * SCALE ≤ ((SCALE - (logReduceGo 200 0 I).2.lo : ℤ) : ℝ)
      push_cast
      nlinarith
  have hp0 : (⟨SCALE - (logReduceGo 200 0 I).2.hi,
      SCALE - (logReduceGo 200 0 I).2.lo⟩ : ZI).mem ((1 - m) ^ (0 + 1)) := by
    simpa using hyI
  have hs0 : (⟨0, 0⟩ : ZI).mem
      (∑ j in Finset.range 0, (1 - m) ^ (j + 1) / ((j : ℝ) + 1)) := by
    constructor <;> simp [ZI.mem]
  have hser := logSeriesGo_mem _ (1 - m) hyI 40 0 _ _ hp0 hs0
  rw [show (0 + 40 : ℕ) = 40 from rfl] at hser
  have hbound := Real.abs_log_sub_add_sum_range_le hylt 40
  rw [show (1 : ℝ) - (1 - m) = m by ring] at hbound
  have herr : |1 - m| ^ 41 / (1 - |1 - m|) ≤ (LOG_ERR : ℝ) / SCALE := by
    have h1 : |1 - m| ^ 41 ≤ (1 / 2 : ℝ) ^ 41 :=
      pow_le_pow_left (abs_nonneg _) hyabs 41
    have h2 : (1 / 2 : ℝ) ≤ 1 - |1 - m| := by linarith
    have h3 : |1 - m| ^ 41 / (1 - |1 - m|) ≤ (1 / 2 : ℝ) ^ 41 / (1 / 2) :=
      div_le_div (by positivity) h1 (by norm_num) h2
    refine h3.trans ?_
    have heq : ((1 : ℝ) / 2) ^ 41 / (1 / 2) = 1 / 2 ^ 40 := by norm_num
    rw [heq, div_le_div_iff (by positivity) hS]
    have h5 : (SCALE : ℝ) / (((2 : ℤ) ^ 40 : ℤ) : ℝ) ≤ (LOG_ERR : ℝ) :=
      le_cdiv SCALE (2 ^ 40) (by positivity)
    rw [show (((2 : ℤ) ^ 40 : ℤ) : ℝ) = (2 : ℝ) ^ 40 by push_cast; ring] at h5
    rw [div_le_iff₀ (by positivity : (0 : ℝ) < (2 : ℝ) ^ 40)] at h5
    linarith
  have hmul : |(∑ j in Finset.range 40, (1 - m) ^ (j + 1) / ((j : ℝ) + 1)) +
      Real.log m| * SCALE ≤ ((LOG_ERR : ℝ) / SCALE) * SCALE :=
    mul_le_mul_of_nonneg_right (hbound.trans herr) hS.le
  rw [div_mul_cancel₀ _ (ne_of_gt hS)] at hmul
  have habs2 : |((∑ j in Finset.range 40, (1 - m) ^ (j + 1) / ((j : ℝ) + 1)) +
      Real.log m) * SCALE| ≤ (LOG_ERR : ℝ) := by
    rw [abs_mul, abs_of_pos hS]
    exact hmul
  obtain ⟨hb1, hb2⟩ := abs_le.mp habs2
  have hlogm : (⟨-LOG_ERR, LOG_ERR⟩ : ZI).mem
      ((∑ j in Finset.range 40, (1 - m) ^ (j + 1) / ((j : ℝ) + 1)) +
        Real.log m) := by
    constructor
    · show ((-LOG_ERR : ℤ) : ℝ) ≤ _ * SCALE
      push_cast
      linarith
    · show _ * SCALE ≤ ((LOG_ERR : ℤ) : ℝ)
      push_cast
      linarith
  have hterm2 := ZI.mem_add (ZI.mem_neg hser) hlogm
  rw [show -(∑ j in Finset.range 40, (1 - m) ^ (j + 1) / ((j : ℝ) + 1)) +
      ((∑ j in Finset.range 40, (1 - m) ^ (j + 1) / ((j : ℝ) + 1)) +
        Real.log m) = Real.log m by ring] at hterm2
  have hterm1 : (zsmul (logReduceGo 200 0 I).1 LN2).mem
      ((((logReduceGo 200 0 I).1 : ℤ) : ℝ) * Real.log 2) :=
    ZI.mem_zsmul _ mem_LN2
  have hfinal := ZI.mem_add hterm1 hterm2
  have hlogx : (((logReduceGo 200 0 I).1 : ℤ) : ℝ) * Real.log 2 + Real.log m
      = Real.log x := by
    rw [hmdef, Real.log_mul (ne_of_gt hx0)
      (ne_of_gt (zpow_pos (by norm_num) _)), Real.log_zpow]
    push_cast
    ring
  rw [hlogx] at hfinal
  exact hfinal

/-- Soundness of the interval power: for a positive base, `spow x p`
is `exp (p * log x)` and `spowZ` encloses it. -/
theorem ZI.mem_spowZ {b e : ZI} {x p : ℝ} (hb : b.mem x) (he : e.mem p)
    (hpos : 0 < b.lo) (hok : b.logOK) (f : ℕ)
    (hlo : -(2 ^ f) * SCALE ≤ (e.mul b.log).lo)
    (hhi : (e.mul b.log).hi ≤ 2 ^ f * SCALE) :
    (ZI.spowZ b e f).mem (spow x p) := by
  have hS := SCALE_posR
  have hx0 : (0 : ℝ) < x := by
    have h1 := hb.1
    have h0 : (0 : ℝ) < (b.lo : ℝ) := by exact_mod_cast hpos
    nlinarith
  rw [spow, Real.sign_of_pos hx0, one_mul, abs_of_pos hx0,
    Real.rpow_def_of_pos hx0, mul_comm (Real.log x) p]
  exact ZI.mem_exp f (ZI.mem_mul he (ZI.mem_log hb hpos hok)) hlo hhi

/-- `ofInt` membership restated at any real equal to the cast. -/
theorem ZI.mem_intR (n : ℤ) {x : ℝ} (e : ((n : ℤ) : ℝ) = x) :
    (ZI.ofInt n).mem x := e ▸ ZI.mem_ofInt n

/-- `ofDec` membership restated at any real equal to the decimal value. -/
theorem ZI.mem_decR (n : ℤ) (d : ℕ) (hd : d ≤ 20) {x : ℝ}
    (e : ((n : ℤ) : ℝ) / 10 ^ d = x) : (ZI.ofDec n d).mem x :=
  e ▸ ZI.mem_ofDec n d hd

/-- Transport a membership along an (evaluated) interval equality. -/
theorem ZI.mem_lit {I J : ZI} {x : ℝ} (h : I.mem x) (hIJ : I = J) :
    J.mem x := hIJ ▸ h

/-- An enclosure whose scaled endpoints are within `ε` of a target `t`
bounds the enclosed value to within `ε` of `t`. -/
theorem ZI.abs_sub_le {I : ZI} {x t ε : ℝ} (h : I.mem x)
    (h1 : (t - ε) * (SCALE : ℝ) ≤ (I.lo : ℝ))
    (h2 : (I.hi : ℝ) ≤ (t + ε) * (SCALE : ℝ)) : |x - t| ≤ ε := by
  obtain ⟨m1, m2⟩ := h
  have hS := SCALE_posR
  rw [abs_le]
  constructor
  · have h3 : t - ε ≤ x := le_of_mul_le_mul_right (by linarith) hS
    linarith
  · have h3 : x ≤ t + ε := le_of_mul_le_mul_right (by linarith) hS
    linarith

/-! ## List helper lemmas -/

theorem length_setL {α : Type} (l : List α) (i : ℕ) (v : α) :
    (setL l i v).length = l.length := by
  induction l generalizing i with
  | nil => rfl
  | cons x xs ih =>
    cases i with
    | zero => rfl
    | succ n => simpa [setL] using ih n

theorem getD_setL_same {α : Type} (l : List α) (i : ℕ) (v d : α)
    (h : i < l.length) : (setL l i v).getD i d = v := by
  induction l generalizing i with
  | nil => simp at h
  | cons x xs ih =>
    cases i with
    | zero => rfl
    | succ n => simpa [setL] using ih n (by simpa using h)

theorem getD_setL_ne {α : Type} (l : List α) (i j : ℕ) (v d : α)
    (h : i ≠ j) : (setL l i v).getD j d = l.getD j d := by
  induction l generalizing i j with
  | nil => rfl
  | cons x xs ih =>
    cases i with
    | zero =>
      cases j with
      | zero => exact absurd rfl h
      | succ k => rfl
    | succ n =>
      cases j with
      | zero => rfl
      | succ k => simpa [setL] using ih n k (fun hnk => h (by omega))

theorem getD_append_left {α : Type} (l t : List α) (i : ℕ) (d : α)
    (h : i < l.length) : (l ++ t).getD i d = l.getD i d := by
  induction l generalizing i with
  | nil => simp at h
  | cons x xs ih =>
    cases i with
    | zero => rfl
    | succ n => simpa using ih n (by simpa using h)

theorem getD_append_at {α : Type} (l t : List α) (a d : α) :
    (l ++ a :: t).getD l.length d = a := by
  induction l with
  | nil => rfl
  | cons x xs ih => simpa using ih

theorem setL_append_at {α : Type} (l t : List α) (i : ℕ) (v : α) :
    setL (l ++ t) (l.length + i) v = l ++ setL t i v := by
  induction l with
  | nil => simp
  | cons x xs ih => simpa [setL, Nat.succ_add] using ih

theorem find?_append_none {α : Type} (l t : List α) (p : α → Bool)
    (h : l.find? p = none) : (l ++ t).find? p = t.find? p := by
  induction l with
  | nil => rfl
  | cons x xs ih =>
    cases hx : p x with
    | true =>
      rw [List.find?_cons_of_pos _ hx] at h
      exact absurd h (by simp)
    | false =>
      rw [List.find?_cons_of_neg _ (by simp [hx])] at h
      rw [List.cons_append, List.find?_cons_of_neg _ (by simp [hx])]
      exact ih h

theorem getLastD_of_reverse {α : Type} (l : List α) (p a b : α)
    (rev : List α) (h : (p :: l).reverse = a :: b :: rev) :
    l.getLastD p = a := by
  have h2 : p :: l = rev.reverse ++ [b] ++ [a] := by
    have := congrArg List.reverse h
    simpa [List.reverse_cons, List.append_assoc] using this
  have h3 : l.getLastD p = (p :: l).getLastD p :=
    (List.getLastD_cons p p l).symm
  rw [h3, h2]
  exact List.getLastD_concat p a (rev.reverse ++ [b])

theorem map_snd_id (f : ℚ → ℚ) (h : ∀ a, f a = a) :
    ∀ l : List (ℚ × ℚ), l.map (fun p => (p.1, f p.2)) = l
  | [] => rfl
  | p :: rest => by
    simp only [List.map_cons, map_snd_id f h rest, h p.2]

theorem sum_map_single (f : ℚ → ℚ) (w0 : ℚ)
    (h : ∀ w, w ≠ w0 → f w = 0) :
    ∀ l : List ℚ, (l.map f).sum = (l.count w0 : ℚ) * f w0 := by
  intro l
  induction l with
  | nil => simp
  | cons x xs ih =>
    by_cases hx : x = w0
    · subst hx
      simp only [List.map_cons, List.sum_cons, ih, List.count_cons_self]
      push_cast
      ring
    · rw [List.map_cons, List.sum_cons, ih, h x hx,
        List.count_cons_of_ne (Ne.symm hx)]
      ring

/-! ## Claim C4 — Signal indexed write inserts a new knot -/

/-- Claim C4: on the Signal with range `[10, 20, …, 100]` over integer
domain `0‥9`, the indexed write `signal[2.5] = v` inserts a new knot
rather than failing: the length grows by one, the domain contains `2.5`
in sorted position between 2 and 3, and the range values stored at the
existing domain positions 2 and 3 are unchanged — for every written
value `v`. -/
theorem signal_setitem_inserts_knot (v : ℚ) :
    (signalTen.setitem (5 / 2) v).length = signalTen.length + 1 ∧
    (signalTen.setitem (5 / 2) v).domain =
      [0, 1, 2, 5 / 2, 3, 4, 5, 6, 7, 8, 9] ∧
    (signalTen.setitem (5 / 2) v).valueAt 2 = some 30 ∧
    (signalTen.setitem (5 / 2) v).valueAt 3 = some 40 := by
  refine ⟨?_, ?_, ?_, ?_⟩ <;>
    norm_num [signalTen, Signal.setitem, insertKnot, Signal.length,
      Signal.domain, Signal.valueAt, List.find?]

/-! ## Claim C7 — arithmetical_operation round-trips -/

/-- Claim C7: for every Signal `s` and scalar `v ≠ 0`, applying
`arithmetical_operation` with an invertible operator and then its inverse
(with `in_place=False`) returns a Signal equal to the original, for all
four pairings `+/-`, `-/+`, `*//` and `//*`; and with `in_place=False` the
original Signal is left unmodified (the state of `self` after the call is
the original signal). -/
theorem signal_arithmetical_operation_roundtrip (s : Signal) (v : ℚ)
    (hv : v ≠ 0) :
    (((s.arithmetical_operation v .add false).1.arithmetical_operation
        v .sub false).1 = s ∧
      ((s.arithmetical_operation v .sub false).1.arithmetical_operation
        v .add false).1 = s ∧
      ((s.arithmetical_operation v .mul false).1.arithmetical_operation
        v .div false).1 = s ∧
      ((s.arithmetical_operation v .div false).1.arithmetical_operation
        v .mul false).1 = s) ∧
    ∀ op : ArithOp, (s.arithmetical_operation v op false).2 = s := by
  refine ⟨⟨?_, ?_, ?_, ?_⟩, fun op => rfl⟩
  · show (⟨List.map _ (List.map _ s.knots)⟩ : Signal) = s
    rw [List.map_map]
    conv_rhs => rw [show s = ⟨s.knots⟩ from rfl]
    exact congrArg Signal.mk
      (map_snd_id (fun a => a + v - v) (fun a => by ring) s.knots)
  · show (⟨List.map _ (List.map _ s.knots)⟩ : Signal) = s
    rw [List.map_map]
    conv_rhs => rw [show s = ⟨s.knots⟩ from rfl]
    exact congrArg Signal.mk
      (map_snd_id (fun a => a - v + v) (fun a => by ring) s.knots)
  · show (⟨List.map _ (List.map _ s.knots)⟩ : Signal) = s
    rw [List.map_map]
    conv_rhs => rw [show s = ⟨s.knots⟩ from rfl]
    exact congrArg Signal.mk
      (map_snd_id (fun a => a * v / v)
        (fun a => mul_div_cancel_right₀ a hv) s.knots)
  · show (⟨List.map _ (List.map _ s.knots)⟩ : Signal) = s
    rw [List.map_map]
    conv_rhs => rw [show s = ⟨s.knots⟩ from rfl]
    exact congrArg Signal.mk
      (map_snd_id (fun a => a / v * v)
        (fun a => div_mul_cancel₀ a hv) s.knots)

/-- Witness for C7 at the concrete ten-knot signal and `v = 10`. -/
theorem signal_arithmetical_operation_roundtrip_witness :
    (((signalTen.arithmetical_operation 10 .add false).1.arithmetical_operation
        10 .sub false).1 = signalTen ∧
      ((signalTen.arithmetical_operation 10 .sub false).1.arithmetical_operation
        10 .add false).1 = signalTen ∧
      ((signalTen.arithmetical_operation 10 .mul false).1.arithmetical_operation
        10 .div false).1 = signalTen ∧
      ((signalTen.arithmetical_operation 10 .div false).1.arithmetical_operation
        10 .mul false).1 = signalTen) ∧
    ∀ op : ArithOp, (signalTen.arithmetical_operation 10 op false).2 = signalTen :=
  signal_arithmetical_operation_roundtrip signalTen 10 (by norm_num)

/-! ## Claim C5 — LUT_to_LUT 3x1D → 1D conversion legality -/

/-- Claim C5: converting a 3x1D LUT to a 1D LUT raises a usage error when
`force_conversion` is not set; with `force_conversion=True` and
`channel_weights=[1, 0, 0]` it succeeds, and the resulting table (and
per-channel domain) equal the source LUT's red channel exactly. -/
theorem LUT_to_LUT_3x1D_to_1D_requires_force (lut : LUT3x1D)
    (w : ℚ × ℚ × ℚ) :
    LUT_to_LUT_3x1D_to_LUT1D lut false w = .error lutForceConversionError ∧
    LUT_to_LUT_3x1D_to_LUT1D lut true (1, 0, 0) =
      .ok ⟨lut.table.map (fun t => t.1), lut.domain.map (fun t => t.1)⟩ := by
  constructor
  · rfl
  · have hw : weightedSum (1, 0, 0) = fun t : ℚ × ℚ × ℚ => t.1 := by
      funext t
      show 1 * t.1 + 0 * t.2.1 + 0 * t.2.2 = t.1
      ring
    show Except.ok (⟨_, _⟩ : LUT1D) = _
    rw [hw]

/-! ## Claim C6 — ASTM E308 practice-range validation (corrected) -/

/-- Counterexample to claim C6 as stated: the shape `[400, 700]` at 1 nm
does *not* conform to the claim's condition (it does not span
`[360, 830]`), yet `sd_to_XYZ_ASTME308` accepts it — the repository's own
test `test_sd_to_XYZ_ASTME308_mi_1nm` evaluates it successfully on this
shape, so only the measurement interval is validated. -/
theorem astme308_span_not_validated :
    claimedPracticeConforming ⟨400, 700, 1⟩ = false ∧
    sd_to_XYZ_ASTME308_validate ⟨400, 700, 1⟩ true = .ok ⟨400, 700, 1⟩ := by
  constructor
  · rfl
  · rfl

/-- Claim C6 (amended): with `use_practice_range=True`,
`sd_to_XYZ_ASTME308` raises a validation error exactly for the spectral
shapes whose measurement interval is not 1, 5, 10 or 20 nm (the spanned
range is not validated); in particular a distribution sampled on
`[360, 820]` at 2 nm is rejected. -/
theorem astme308_validate_interval_only (sh : SpectralShape) :
    (sd_to_XYZ_ASTME308_validate sh true = .error astme308IntervalError ↔
      standardPracticeInterval sh = false) ∧
    sd_to_XYZ_ASTME308_validate ⟨360, 820, 2⟩ true =
      .error astme308IntervalError := by
  constructor
  · unfold sd_to_XYZ_ASTME308_validate
    cases h : standardPracticeInterval sh with
    | true => simp [h]
    | false => simp [h]
  · rfl

/-! ## Claim C8 — extrapolation policy: silent NaN, linear tangent -/

/-- Claim C8: for a Signal under the default extrapolator configuration
(`Constant` method with unset left/right bounds), evaluating at any query
point outside the domain interval returns NaN (`none`) — and, evaluation
being total, never raises; after switching the extrapolator to the
`Linear` method, the same out-of-domain query returns the linear extension
of the boundary tangent (the line through the two boundary-adjacent
knots). -/
theorem signal_extrapolation_default_nan_linear_tangent (s : Signal)
    (interp : ℚ → ℚ) (p q a b : ℚ × ℚ) (rest rev : List (ℚ × ℚ)) (x : ℚ)
    (hk : s.knots = p :: q :: rest)
    (hrev : (p :: q :: rest).reverse = a :: b :: rev)
    (hsorted : s.knots.Pairwise (fun r t => r.1 < t.1)) :
    (x < p.1 →
      s.evaluate defaultExtrapolatorKwargs interp x = none ∧
      s.evaluate linearExtrapolatorKwargs interp x =
        some (lineThrough p q x)) ∧
    (a.1 < x →
      s.evaluate defaultExtrapolatorKwargs interp x = none ∧
      s.evaluate linearExtrapolatorKwargs interp x =
        some (lineThrough a b x)) := by
  have hlast : (q :: rest).getLastD p = a :=
    getLastD_of_reverse (q :: rest) p a b rev hrev
  have hpa : p.1 ≤ a.1 := by
    have hmem : a ∈ p :: q :: rest := by
      rw [← List.mem_reverse, hrev]
      exact List.mem_cons_self a (b :: rev)
    rw [hk] at hsorted
    rcases List.mem_cons.mp hmem with h | h
    · exact le_of_eq (by rw [h])
    · exact le_of_lt ((List.pairwise_cons.mp hsorted).1 a h)
  constructor
  · intro hx
    constructor
    · simp only [Signal.evaluate, hk, evaluateKnots, defaultExtrapolatorKwargs]
      rw [if_pos hx]
    · simp only [Signal.evaluate, hk, evaluateKnots, linearExtrapolatorKwargs]
      rw [if_pos hx]
  · intro hx
    have hx2 : ¬x < p.1 := not_lt.mpr (le_trans hpa (le_of_lt hx))
    constructor
    · simp only [Signal.evaluate, hk, evaluateKnots, hlast,
        defaultExtrapolatorKwargs]
      rw [if_neg hx2, if_pos hx]
    · simp only [Signal.evaluate, hk, evaluateKnots, hlast, hrev,
        linearExtrapolatorKwargs]
      rw [if_neg hx2, if_pos hx]

/-- Witness for C8 at the ten-knot test signal and the out-of-domain query
`x = -1000` (the query of `test_extrapolator_kwargs`). -/
theorem signal_extrapolation_default_nan_linear_tangent_witness :
    signalTen.evaluate defaultExtrapolatorKwargs (fun _ => 0) (-1000) = none ∧
    signalTen.evaluate linearExtrapolatorKwargs (fun _ => 0) (-1000) =
      some (lineThrough (0, 10) (1, 20) (-1000)) :=
  (signal_extrapolation_default_nan_linear_tangent signalTen (fun _ => 0)
    (0, 10) (1, 20) (9, 100) (8, 90)
    [(2, 30), (3, 40), (4, 50), (5, 60), (6, 70), (7, 80), (8, 90), (9, 100)]
    [(7, 80), (6, 70), (5, 60), (4, 50), (3, 40), (2, 30), (1, 20), (0, 10)]
    (-1000) rfl (by decide) (by decide)).1 (by norm_num)

/-! ## Claim C9 — CIE 1994 usage warning does not alter control flow -/

/-- Claim C9: `chromatic_adaptation_CIE1994` issues its recoverable usage
warning exactly when `Y_o` lies outside [18, 100], and the warning does not
alter control flow: the function still computes and returns the adapted
tristimulus values, equal to the warning-free computation, for every
input. -/
theorem cie1994_warning_does_not_alter_result (XYZ_1 : Tri)
    (xy_o1 xy_o2 : ℝ × ℝ) (Y_o E_o1 E_o2 n : ℝ) :
    ((chromatic_adaptation_CIE1994_warned XYZ_1 xy_o1 xy_o2 Y_o E_o1 E_o2 n).1
        = [CIE1994WarningText] ↔ CIE1994UsageWarning Y_o) ∧
    ((chromatic_adaptation_CIE1994_warned XYZ_1 xy_o1 xy_o2 Y_o E_o1 E_o2 n).1
        = [] ↔ ¬CIE1994UsageWarning Y_o) ∧
    (chromatic_adaptation_CIE1994_warned XYZ_1 xy_o1 xy_o2 Y_o E_o1 E_o2 n).2 =
      chromatic_adaptation_CIE1994 XYZ_1 xy_o1 xy_o2 Y_o E_o1 E_o2 n := by
  refine ⟨?_, ?_, rfl⟩ <;>
  · by_cases h : Y_o < 18 ∨ 100 < Y_o <;>
      simp [chromatic_adaptation_CIE1994_warned, CIE1994UsageWarning, h,
        CIE1994WarningText]

/-! ## Claim C1 — absolute integration with caller-supplied k (corrected) -/

/-- The number of grid points of a shape equal to a given wavelength is
one, as soon as one grid index hits it (the grid of a positive-interval
shape has no duplicates). -/
theorem count_wavelengths_one (sh : SpectralShape) (w0 : ℚ) (j : ℕ)
    (hpos : 0 < sh.interval) (hj : j < sh.sampleCount)
    (hw : sh.start + (j : ℚ) * sh.interval = w0) :
    sh.wavelengths.count w0 = 1 := by
  have hinj : Function.Injective
      (fun i : ℕ => sh.start + (i : ℚ) * sh.interval) := by
    intro i₁ i₂ h
    have h2 : (i₁ : ℚ) * sh.interval = (i₂ : ℚ) * sh.interval := by
      have := h
      simp only at this
      linarith
    have h3 : (i₁ : ℚ) = i₂ := mul_right_cancel₀ (ne_of_gt hpos) h2
    exact_mod_cast h3
  have hnodup : sh.wavelengths.Nodup :=
    (List.nodup_range sh.sampleCount).map hinj
  have hmem : w0 ∈ sh.wavelengths := by
    rw [← hw]
    exact List.mem_map_of_mem _ (List.mem_range.mpr hj)
  exact List.count_eq_one_of_mem hnodup hmem

/-- The tristimulus `Y` of an impulse distribution under
`sd_to_XYZ_integration` with caller-supplied `k`: only the 555 nm grid
point contributes. -/
theorem integration_impulse_Y (cmfs : ℚ → ℚ × ℚ × ℚ) (illuminant : ℚ → ℚ)
    (sh : SpectralShape) (A k : ℚ) :
    (sd_to_XYZ_integration (sdImpulse sh 555 A) cmfs illuminant (some k)).2.1
      = k * ((sh.wavelengths.count 555 : ℚ) *
          (illuminant 555 * (cmfs 555).2.1 * A * sh.interval)) := by
  have hs := sum_map_single
    (fun w => illuminant w * (cmfs w).2.1 * (if w = 555 then A else 0) *
      sh.interval) 555 (fun w hw => by simp [hw]) sh.wavelengths
  show k * _ = _
  simp only [sdImpulse]
  rw [hs]
  simp

/-- Counterexample to claim C1 as stated: with the distribution whose
single sample at 555 nm is `1` (and CMFs/illuminant that are 1 at 555 nm),
sampling at a 5 nm interval yields `Y = 683 * 5 = 3415`, not `683 ± 5e-2`:
the Riemann sum weights the single sample by the 5 nm step, so the claimed
bound only holds with the width-weighted sample value `0.2`. -/
theorem sd_to_XYZ_integration_5nm_unit_sample_counterexample :
    (cmfsOnes 555).2.1 = 1 ∧ illuminantOnes 555 = 1 ∧
    (sd_to_XYZ_integration (sdImpulse ⟨380, 780, 5⟩ 555 1) cmfsOnes
        illuminantOnes (some 683)).2.1 = 3415 ∧
    ¬|(sd_to_XYZ_integration (sdImpulse ⟨380, 780, 5⟩ 555 1) cmfsOnes
        illuminantOnes (some 683)).2.1 - 683| ≤ 5e-2 := by
  have hc : ((⟨380, 780, 5⟩ : SpectralShape).wavelengths.count 555) = 1 := by
    refine count_wavelengths_one _ _ 35 (by norm_num) ?_ (by norm_num)
    show 35 < (⌊((780 : ℚ) - 380) / 5⌋).toNat + 1
    have h80 : (⌊((780 : ℚ) - 380) / 5⌋) = 80 := by norm_num
    rw [h80]
    decide
  have h1 : (sd_to_XYZ_integration (sdImpulse ⟨380, 780, 5⟩ 555 1) cmfsOnes
      illuminantOnes (some 683)).2.1 = 3415 := by
    rw [integration_impulse_Y, hc]
    norm_num [cmfsOnes, illuminantOnes]
  refine ⟨rfl, rfl, h1, ?_⟩
  rw [h1]
  norm_num

/-- Claim C1 (amended): for a spectral distribution with all its energy at
555 nm and explicit `k = 683` bypassing the normalising sum — the sample
value being `1` at a 1 nm interval and the width-weighted `0.2` at a 5 nm
interval — `sd_to_XYZ_integration` returns `Y ≈ 683` (within 5e-5 at 1 nm,
within 5e-2 at 5 nm), for any CMFs and illuminant normalised to 1 at
555 nm. -/
theorem sd_to_XYZ_integration_absolute_k (cmfs : ℚ → ℚ × ℚ × ℚ)
    (illuminant : ℚ → ℚ) (hy : (cmfs 555).2.1 = 1)
    (hi : illuminant 555 = 1) :
    |(sd_to_XYZ_integration (sdImpulse ⟨380, 780, 1⟩ 555 1) cmfs illuminant
        (some 683)).2.1 - 683| ≤ 5e-5 ∧
    |(sd_to_XYZ_integration (sdImpulse ⟨380, 780, 5⟩ 555 (0.2)) cmfs
        illuminant (some 683)).2.1 - 683| ≤ 5e-2 := by
  have hc1 : ((⟨380, 780, 1⟩ : SpectralShape).wavelengths.count 555) = 1 := by
    refine count_wavelengths_one _ _ 175 (by norm_num) ?_ (by norm_num)
    show 175 < (⌊((780 : ℚ) - 380) / 1⌋).toNat + 1
    have h400 : (⌊((780 : ℚ) - 380) / 1⌋) = 400 := by norm_num
    rw [h400]
    decide
  have hc5 : ((⟨380, 780, 5⟩ : SpectralShape).wavelengths.count 555) = 1 := by
    refine count_wavelengths_one _ _ 35 (by norm_num) ?_ (by norm_num)
    show 35 < (⌊((780 : ℚ) - 380) / 5⌋).toNat + 1
    have h80 : (⌊((780 : ℚ) - 380) / 5⌋) = 80 := by norm_num
    rw [h80]
    decide
  constructor
  · rw [integration_impulse_Y, hc1, hy, hi]
    norm_num
  · rw [integration_impulse_Y, hc5, hy, hi]
    norm_num

/-- Witness for C1 (amended) at all-ones CMFs and illuminant. -/
theorem sd_to_XYZ_integration_absolute_k_witness :
    |(sd_to_XYZ_integration (sdImpulse ⟨380, 780, 1⟩ 555 1) cmfsOnes
        illuminantOnes (some 683)).2.1 - 683| ≤ 5e-5 ∧
    |(sd_to_XYZ_integration (sdImpulse ⟨380, 780, 5⟩ 555 (0.2)) cmfsOnes
        illuminantOnes (some 683)).2.1 - 683| ≤ 5e-2 :=
  sd_to_XYZ_integration_absolute_k cmfsOnes illuminantOnes rfl rfl

/-! ## Claim C3 — Lagrange-coefficient cache hands out defensive copies -/

/-- Claim C3: for every subdivision factor and boundary-mode argument (and
every starting cache state whose references are well formed), mutating the
array returned by `lagrange_coefficients_ASTME2022` does not change the
array returned by a subsequent call with the same arguments: the second
call returns exactly the contents the first call handed out, even though
the first result was overwritten in between. -/
theorem lagrange_cache_defensive_copy (st : LagrangeCacheState)
    (interval : ℕ) (boundary : Bool) (m : List ℚ) (hwf : cacheWF st) :
    (cacheMutationExperiment st interval boundary m).2 =
      (cacheMutationExperiment st interval boundary m).1 := by
  unfold cacheMutationExperiment lagrange_coefficients_ASTME2022
  cases hf : st.cache.find? (fun e => e.1 == (interval, boundary)) with
  | some e =>
    have he2 : e.2 < st.heap.length := hwf e (List.mem_of_find?_eq_some hf)
    simp only [hf]
    have hw : heapWrite (st.heap ++ [heapRead st.heap e.2]) st.heap.length m
        = st.heap ++ [m] := by
      have h := setL_append_at st.heap [heapRead st.heap e.2] 0 m
      simpa [heapWrite, setL] using h
    simp only [hw]
    have hr1 : heapRead (st.heap ++ [m]) e.2 = heapRead st.heap e.2 :=
      getD_append_left st.heap [m] e.2 [] he2
    have hr2 : heapRead ((st.heap ++ [m]) ++
          [heapRead (st.heap ++ [m]) e.2]) (st.heap ++ [m]).length
        = heapRead (st.heap ++ [m]) e.2 :=
      getD_append_at (st.heap ++ [m]) [] _ []
    have hr3 : heapRead (st.heap ++ [heapRead st.heap e.2]) st.heap.length
        = heapRead st.heap e.2 :=
      getD_append_at st.heap [] _ []
    rw [hr2, hr1, hr3]
  | none =>
    simp only [hf]
    have hw : heapWrite
        (st.heap ++ [lagrangeCoefficientsASTME2022Data interval boundary,
          lagrangeCoefficientsASTME2022Data interval boundary])
        (st.heap.length + 1) m
        = st.heap ++ [lagrangeCoefficientsASTME2022Data interval boundary, m] := by
      have h := setL_append_at st.heap
        [lagrangeCoefficientsASTME2022Data interval boundary,
          lagrangeCoefficientsASTME2022Data interval boundary] 1 m
      simpa [heapWrite, setL] using h
    have hf2 : (st.cache ++ [((interval, boundary), st.heap.length)]).find?
        (fun e => e.1 == (interval, boundary))
        = some ((interval, boundary), st.heap.length) := by
      rw [find?_append_none st.cache _ _ hf]
      exact List.find?_cons_of_pos _ (by simp)
    simp only [hw, hf2]
    have hr1 : heapRead
        (st.heap ++ [lagrangeCoefficientsASTME2022Data interval boundary, m])
        st.heap.length = lagrangeCoefficientsASTME2022Data interval boundary :=
      getD_append_at st.heap [m] _ []
    rw [hr1]
    have hr2 : heapRead
        ((st.heap ++ [lagrangeCoefficientsASTME2022Data interval boundary, m])
          ++ [lagrangeCoefficientsASTME2022Data interval boundary])
        (st.heap ++
          [lagrangeCoefficientsASTME2022Data interval boundary, m]).length
        = lagrangeCoefficientsASTME2022Data interval boundary :=
      getD_append_at _ [] _ []
    rw [hr2]
    have h2 : st.heap ++ [lagrangeCoefficientsASTME2022Data interval boundary,
        lagrangeCoefficientsASTME2022Data interval boundary]
        = (st.heap ++ [lagrangeCoefficientsASTME2022Data interval boundary]) ++
          [lagrangeCoefficientsASTME2022Data interval boundary] := by simp
    have h3 : st.heap.length + 1
        = (st.heap ++
            [lagrangeCoefficientsASTME2022Data interval boundary]).length := by
      simp
    rw [h2, h3]
    exact (getD_append_at _ [] _ []).symm

/-- Witness for C3: the empty cache state, subdivision 10, inner mode. -/
theorem lagrange_cache_defensive_copy_witness :
    (cacheMutationExperiment ⟨[], []⟩ 10 false []).2 =
      (cacheMutationExperiment ⟨[], []⟩ 10 false []).1 :=
  lagrange_cache_defensive_copy ⟨[], []⟩ 10 false []
    (by intro e he; simp at he)

/-! ## Claim C10 — the Stearns correction is a sequential in-place sweep -/

theorem stearnsLoop_length (A : ℚ) : ∀ (k i : ℕ) (w : List ℚ),
    (stearnsLoop A i k w).length = w.length := by
  intro k
  induction k with
  | zero => intro i w; rfl
  | succ k ih =>
    intro i w
    show (stearnsLoop A (i + 1) k _).length = _
    rw [ih, length_setL]

/-- The interior sweep leaves every index outside its write window
`[i, i + k)` untouched. -/
theorem stearnsLoop_getD_outside (A : ℚ) : ∀ (k i j : ℕ) (w : List ℚ),
    j < i ∨ i + k ≤ j → (stearnsLoop A i k w).getD j 0 = w.getD j 0 := by
  intro k
  induction k with
  | zero => intro i j w _; rfl
  | succ k ih =>
    intro i j w hj
    show (stearnsLoop A (i + 1) k (setL w i
      (-A * w.getD (i - 1) 0 + (1 + 2 * A) * w.getD i 0
        - A * w.getD (i + 1) 0))).getD j 0 = _
    rw [ih (i + 1) j _ (by omega)]
    exact getD_setL_ne w i j _ 0 (by omega)

/-- Each index in the write window of the interior sweep receives the
sequential correction: the already-corrected left neighbour, the original
centre sample, and the right neighbour as it stood when the sweep reached
the index (which, inside the window, is the original sample). -/
theorem stearnsLoop_getD_inside (A : ℚ) : ∀ (k i j : ℕ) (w : List ℚ),
    1 ≤ i → i ≤ j → j < i + k → i + k ≤ w.length →
    (stearnsLoop A i k w).getD j 0 =
      -A * (stearnsLoop A i k w).getD (j - 1) 0
        + (1 + 2 * A) * w.getD j 0 - A * w.getD (j + 1) 0 := by
  intro k
  induction k with
  | zero => intro i j w _ h2 h3 _; exact absurd h3 (by omega)
  | succ k ih =>
    intro i j w h1 h2 h3 h4
    have hunf : stearnsLoop A i (k + 1) w = stearnsLoop A (i + 1) k
        (setL w i (-A * w.getD (i - 1) 0 + (1 + 2 * A) * w.getD i 0
          - A * w.getD (i + 1) 0)) := rfl
    by_cases hji : j = i
    · subst hji
      rw [hunf]
      rw [stearnsLoop_getD_outside A k (j + 1) j _ (Or.inl (by omega))]
      rw [getD_setL_same w j _ 0 (by omega)]
      rw [stearnsLoop_getD_outside A k (j + 1) (j - 1) _ (Or.inl (by omega))]
      rw [getD_setL_ne w j (j - 1) _ 0 (by omega)]
    · rw [hunf]
      rw [ih (i + 1) j _ (by omega) (by omega)
        (by omega) (by rw [length_setL]; omega)]
      rw [getD_setL_ne w i j _ 0 (by omega),
        getD_setL_ne w i (j + 1) _ 0 (by omega)]

/-- Claim C10: `bandpass_correction_Stearns1988` returns the values given
by the sequential in-place recurrence with `α = 0.083`: both end samples
are corrected first from their original neighbours, then the interior
samples in increasing order, each correction reading the already-corrected
value at `i - 1` (and, at `i = n - 2`, the already-corrected value at
`n - 1`) rather than applying the published formula simultaneously to the
original data. -/
theorem bandpass_correction_Stearns1988_recurrence (v : List ℚ)
    (hn : 3 ≤ v.length) :
    (bandpass_correction_Stearns1988 v).length = v.length ∧
    (bandpass_correction_Stearns1988 v).getD 0 0 =
      (1 + CONSTANT_ALPHA_STEARNS) * v.getD 0 0
        - CONSTANT_ALPHA_STEARNS * v.getD 1 0 ∧
    (bandpass_correction_Stearns1988 v).getD (v.length - 1) 0 =
      (1 + CONSTANT_ALPHA_STEARNS) * v.getD (v.length - 1) 0
        - CONSTANT_ALPHA_STEARNS * v.getD (v.length - 2) 0 ∧
    ∀ i, 1 ≤ i → i ≤ v.length - 2 →
      (bandpass_correction_Stearns1988 v).getD i 0 =
        -CONSTANT_ALPHA_STEARNS *
            (bandpass_correction_Stearns1988 v).getD (i - 1) 0
          + (1 + 2 * CONSTANT_ALPHA_STEARNS) * v.getD i 0
          - CONSTANT_ALPHA_STEARNS *
            (if i = v.length - 2
             then (bandpass_correction_Stearns1988 v).getD (v.length - 1) 0
             else v.getD (i + 1) 0) := by
  have hA : CONSTANT_ALPHA_STEARNS = (0.083 : ℚ) := rfl
  set A := CONSTANT_ALPHA_STEARNS
  set n := v.length with hnv
  set c0 := (1 + A) * v.getD 0 0 - A * v.getD 1 0 with hc0
  set v1 := setL v 0 c0 with hv1
  set cl := (1 + A) * v1.getD (n - 1) 0 - A * v1.getD (n - 2) 0 with hcl
  set v2 := setL v1 (n - 1) cl with hv2
  have hunf : bandpass_correction_Stearns1988 v
      = stearnsLoop A 1 (n - 2) v2 := rfl
  have hlen1 : v1.length = n := length_setL v 0 c0
  have hlen2 : v2.length = n := by rw [hv2, length_setL, hlen1]
  have hv1at0 : v1.getD 0 0 = c0 := getD_setL_same v 0 c0 0 (by omega)
  have hv2at0 : v2.getD 0 0 = c0 := by
    rw [hv2, getD_setL_ne v1 (n - 1) 0 cl 0 (by omega), hv1at0]
  have hv2atl : v2.getD (n - 1) 0 = cl :=
    getD_setL_same v1 (n - 1) cl 0 (by omega)
  have hclv : cl = (1 + A) * v.getD (n - 1) 0 - A * v.getD (n - 2) 0 := by
    rw [hcl, hv1, getD_setL_ne v 0 (n - 1) c0 0 (by omega),
      getD_setL_ne v 0 (n - 2) c0 0 (by omega)]
  have hv2mid : ∀ j, j ≠ 0 → j ≠ n - 1 → v2.getD j 0 = v.getD j 0 := by
    intro j hj0 hjl
    rw [hv2, getD_setL_ne v1 (n - 1) j cl 0 (fun h => hjl h.symm), hv1,
      getD_setL_ne v 0 j c0 0 (fun h => hj0 h.symm)]
  have hrlen : (bandpass_correction_Stearns1988 v).length = n := by
    rw [hunf, stearnsLoop_length, hlen2]
  have hr0 : (bandpass_correction_Stearns1988 v).getD 0 0 = c0 := by
    rw [hunf, stearnsLoop_getD_outside A (n - 2) 1 0 v2 (Or.inl (by omega)),
      hv2at0]
  have hrl : (bandpass_correction_Stearns1988 v).getD (n - 1) 0 = cl := by
    rw [hunf, stearnsLoop_getD_outside A (n - 2) 1 (n - 1) v2
      (Or.inr (by omega)), hv2atl]
  refine ⟨hrlen, by rw [hr0, hc0], by rw [hrl, hclv], ?_⟩
  intro i h1i hin
  have hmain := stearnsLoop_getD_inside A (n - 2) 1 i v2 (by omega) h1i
    (by omega) (by omega)
  rw [← hunf] at hmain
  rw [hmain, hv2mid i (by omega) (by omega)]
  by_cases hie : i = n - 2
  · rw [if_pos hie, hie]
    have : n - 2 + 1 = n - 1 := by omega
    rw [this, hv2atl, hrl]
  · rw [if_neg hie, hv2mid (i + 1) (by omega) (by omega)]

/-- Witness for C10 at the six-sample docstring data of
`bandpass_correction_Stearns1988` (as exact rationals): the recurrence
holds there, and in particular the first corrected sample is
`1.083 * 0.0651 - 0.083 * 0.0705`. -/
theorem bandpass_correction_Stearns1988_recurrence_witness :
    (bandpass_correction_Stearns1988 [651 / 10000, 705 / 10000, 772 / 10000,
        870 / 10000, 1128 / 10000, 1360 / 10000]).length = 6 ∧
    (bandpass_correction_Stearns1988 [651 / 10000, 705 / 10000, 772 / 10000,
        870 / 10000, 1128 / 10000, 1360 / 10000]).getD 0 0 =
      (1 + CONSTANT_ALPHA_STEARNS) * (651 / 10000)
        - CONSTANT_ALPHA_STEARNS * (705 / 10000) := by
  have h := bandpass_correction_Stearns1988_recurrence
    [651 / 10000, 705 / 10000, 772 / 10000, 870 / 10000, 1128 / 10000,
      1360 / 10000] (by norm_num)
  exact ⟨h.1, by simpa using h.2.1⟩

set_option maxRecDepth 10000 in
/-- Claim C2: `chromatic_adaptation_CIE1994` applied to
`XYZ_1 = [28.00, 21.26, 5.27]` with test illuminant chromaticity
`xy_o1 = [0.4476, 0.4074]`, reference illuminant chromaticity
`xy_o2 = [0.3127, 0.3290]`, `Y_o = 20`, `E_o1 = E_o2 = 1000` and the
default noise `n = 1` returns the tristimulus values
`[24.0337952, 21.1562121, 17.6430119]`, each component within `1e-6`. -/
theorem chromatic_adaptation_CIE1994_worked_example :
    |(chromatic_adaptation_CIE1994 (28, 21.26, 5.27) (0.4476, 0.4074)
        (0.3127, 0.3290) 20 1000 1000 1).1 - 24.0337952| ≤ 1e-6 ∧
      |(chromatic_adaptation_CIE1994 (28, 21.26, 5.27) (0.4476, 0.4074)
        (0.3127, 0.3290) 20 1000 1000 1).2.1 - 21.1562121| ≤ 1e-6 ∧
      |(chromatic_adaptation_CIE1994 (28, 21.26, 5.27) (0.4476, 0.4074)
        (0.3127, 0.3290) 20 1000 1000 1).2.2 - 17.6430119| ≤ 1e-6 := by
  have hx11 : ZI.mem (⟨111857195385370643102, 111857195385370643103⟩ : ZI) ((intermediate_values (0.4476, 0.4074)).1) := by
    show ZI.mem (⟨111857195385370643102, 111857195385370643103⟩ : ZI)
      ((((0.48105 * 0.4476) + (0.78841 * 0.4074)) - 0.08081) / 0.4074)
    exact ZI.mem_lit (ZI.mem_div (ZI.mem_sub (ZI.mem_add (ZI.mem_mul (ZI.mem_decR 48105 5 (by norm_num) (by norm_num)) (ZI.mem_decR 4476 4 (by norm_num) (by norm_num))) (ZI.mem_mul (ZI.mem_decR 78841 5 (by norm_num) (by norm_num)) (ZI.mem_decR 4074 4 (by norm_num) (by norm_num)))) (ZI.mem_decR 8081 5 (by norm_num) (by norm_num))) (ZI.mem_decR 4074 4 (by norm_num) (by norm_num)) (by decide)) (by decide)
  have hx12 : ZI.mem (⟨93295529700540009818, 93295529700540009819⟩ : ZI) ((intermediate_values (0.4476, 0.4074)).2.1) := by
    show ZI.mem (⟨93295529700540009818, 93295529700540009819⟩ : ZI)
      (((((-0.27200) * 0.4476) + (1.11962 * 0.4074)) + 0.04570) / 0.4074)
    exact ZI.mem_lit (ZI.mem_div (ZI.mem_add (ZI.mem_add (ZI.mem_mul (ZI.mem_decR (-27200) 5 (by norm_num) (by norm_num)) (ZI.mem_decR 4476 4 (by norm_num) (by norm_num))) (ZI.mem_mul (ZI.mem_decR 111962 5 (by norm_num) (by norm_num)) (ZI.mem_decR 4074 4 (by norm_num) (by norm_num)))) (ZI.mem_decR 4570 5 (by norm_num) (by norm_num))) (ZI.mem_decR 4074 4 (by norm_num) (by norm_num)) (by decide)) (by decide)
  have hx13 : ZI.mem (⟨32680878743249877270, 32680878743249877271⟩ : ZI) ((intermediate_values (0.4476, 0.4074)).2.2) := by
    show ZI.mem (⟨32680878743249877270, 32680878743249877271⟩ : ZI)
      ((0.91822 * ((1 - 0.4476) - 0.4074)) / 0.4074)
    exact ZI.mem_lit (ZI.mem_div (ZI.mem_mul (ZI.mem_decR 91822 5 (by norm_num) (by norm_num)) (ZI.mem_sub (ZI.mem_sub (ZI.mem_intR 1 (by norm_num)) (ZI.mem_decR 4476 4 (by norm_num) (by norm_num))) (ZI.mem_decR 4074 4 (by norm_num) (by norm_num)))) (ZI.mem_decR 4074 4 (by norm_num) (by norm_num)) (by decide)) (by decide)
  have hx21 : ZI.mem (⟨100000372340425531914, 100000372340425531915⟩ : ZI) ((intermediate_values (0.3127, 0.3290)).1) := by
    show ZI.mem (⟨100000372340425531914, 100000372340425531915⟩ : ZI)
      ((((0.48105 * 0.3127) + (0.78841 * 0.3290)) - 0.08081) / 0.3290)
    exact ZI.mem_lit (ZI.mem_div (ZI.mem_sub (ZI.mem_add (ZI.mem_mul (ZI.mem_decR 48105 5 (by norm_num) (by norm_num)) (ZI.mem_decR 3127 4 (by norm_num) (by norm_num))) (ZI.mem_mul (ZI.mem_decR 78841 5 (by norm_num) (by norm_num)) (ZI.mem_decR 3290 4 (by norm_num) (by norm_num)))) (ZI.mem_decR 8081 5 (by norm_num) (by norm_num))) (ZI.mem_decR 3290 4 (by norm_num) (by norm_num)) (by decide)) (by decide)
  have hx22 : ZI.mem (⟨100000176291793313069, 100000176291793313070⟩ : ZI) ((intermediate_values (0.3127, 0.3290)).2.1) := by
    show ZI.mem (⟨100000176291793313069, 100000176291793313070⟩ : ZI)
      (((((-0.27200) * 0.3127) + (1.11962 * 0.3290)) + 0.04570) / 0.3290)
    exact ZI.mem_lit (ZI.mem_div (ZI.mem_add (ZI.mem_add (ZI.mem_mul (ZI.mem_decR (-27200) 5 (by norm_num) (by norm_num)) (ZI.mem_decR 3127 4 (by norm_num) (by norm_num))) (ZI.mem_mul (ZI.mem_decR 111962 5 (by norm_num) (by norm_num)) (ZI.mem_decR 3290 4 (by norm_num) (by norm_num)))) (ZI.mem_decR 4570 5 (by norm_num) (by norm_num))) (ZI.mem_decR 3290 4 (by norm_num) (by norm_num)) (by decide)) (by decide)
  have hx23 : ZI.mem (⟨99999460790273556231, 99999460790273556232⟩ : ZI) ((intermediate_values (0.3127, 0.3290)).2.2) := by
    show ZI.mem (⟨99999460790273556231, 99999460790273556232⟩ : ZI)
      ((0.91822 * ((1 - 0.3127) - 0.3290)) / 0.3290)
    exact ZI.mem_lit (ZI.mem_div (ZI.mem_mul (ZI.mem_decR 91822 5 (by norm_num) (by norm_num)) (ZI.mem_sub (ZI.mem_sub (ZI.mem_intR 1 (by norm_num)) (ZI.mem_decR 3127 4 (by norm_num) (by norm_num))) (ZI.mem_decR 3290 4 (by norm_num) (by norm_num)))) (ZI.mem_decR 3290 4 (by norm_num) (by norm_num)) (by decide)) (by decide)
  have hF : ZI.mem (⟨6366197723675813430740, 6366197723675813430761⟩ : ZI) (20 * 1000 / (100 * Real.pi)) := by
    show ZI.mem (⟨6366197723675813430740, 6366197723675813430761⟩ : ZI)
      ((20 * 1000) / (100 * Real.pi))
    exact ZI.mem_lit (ZI.mem_div (ZI.mem_mul (ZI.mem_intR 20 (by norm_num)) (ZI.mem_intR 1000 (by norm_num))) (ZI.mem_mul (ZI.mem_intR 100 (by norm_num)) mem_PI) (by decide)) (by decide)
  have hRo11 : ZI.mem (⟨7121050226391072905933, 7121050226391072906021⟩ : ZI) ((effective_adapting_responses (intermediate_values (0.4476, 0.4074)) 20 1000).1) := by
    show ZI.mem (⟨7121050226391072905933, 7121050226391072906021⟩ : ZI)
      ((20 * 1000 / (100 * Real.pi)) * ((intermediate_values (0.4476, 0.4074)).1))
    exact ZI.mem_lit (ZI.mem_mul hF hx11) (by decide)
  have hRo12 : ZI.mem (⟨5939377888087070543733, 5939377888087070543818⟩ : ZI) ((effective_adapting_responses (intermediate_values (0.4476, 0.4074)) 20 1000).2.1) := by
    show ZI.mem (⟨5939377888087070543733, 5939377888087070543818⟩ : ZI)
      ((20 * 1000 / (100 * Real.pi)) * ((intermediate_values (0.4476, 0.4074)).2.1))
    exact ZI.mem_lit (ZI.mem_mul hF hx12) (by decide)
  have hRo13 : ZI.mem (⟨2080529358630026470793, 2080529358630026470865⟩ : ZI) ((effective_adapting_responses (intermediate_values (0.4476, 0.4074)) 20 1000).2.2) := by
    show ZI.mem (⟨2080529358630026470793, 2080529358630026470865⟩ : ZI)
      ((20 * 1000 / (100 * Real.pi)) * ((intermediate_values (0.4476, 0.4074)).2.2))
    exact ZI.mem_lit (ZI.mem_mul hF hx13) (by decide)
  have hRo21 : ZI.mem (⟨6366221427603507968286, 6366221427603507968371⟩ : ZI) ((effective_adapting_responses (intermediate_values (0.3127, 0.3290)) 20 1000).1) := by
    show ZI.mem (⟨6366221427603507968286, 6366221427603507968371⟩ : ZI)
      ((20 * 1000 / (100 * Real.pi)) * ((intermediate_values (0.3127, 0.3290)).1))
    exact ZI.mem_lit (ZI.mem_mul hF hx21) (by decide)
  have hRo22 : ZI.mem (⟨6366208946759946354608, 6366208946759946354694⟩ : ZI) ((effective_adapting_responses (intermediate_values (0.3127, 0.3290)) 20 1000).2.1) := by
    show ZI.mem (⟨6366208946759946354608, 6366208946759946354694⟩ : ZI)
      ((20 * 1000 / (100 * Real.pi)) * ((intermediate_values (0.3127, 0.3290)).2.1))
    exact ZI.mem_lit (ZI.mem_mul hF hx22) (by decide)
  have hRo23 : ZI.mem (⟨6366163396518482728937, 6366163396518482729022⟩ : ZI) ((effective_adapting_responses (intermediate_values (0.3127, 0.3290)) 20 1000).2.2) := by
    show ZI.mem (⟨6366163396518482728937, 6366163396518482729022⟩ : ZI)
      ((20 * 1000 / (100 * Real.pi)) * ((intermediate_values (0.3127, 0.3290)).2.2))
    exact ZI.mem_lit (ZI.mem_mul hF hx23) (by decide)
  have hs11 : ZI.mem (⟨680328320009702783204, 680328320927734766355⟩ : ZI) (spow ((effective_adapting_responses (intermediate_values (0.4476, 0.4074)) 20 1000).1) 0.4495) := by
    show ZI.mem (⟨680328320009702783204, 680328320927734766355⟩ : ZI)
      (spow ((effective_adapting_responses (intermediate_values (0.4476, 0.4074)) 20 1000).1) 0.4495)
    exact ZI.mem_lit (ZI.mem_spowZ hRo11 (ZI.mem_decR 4495 4 (by norm_num) (by norm_num)) (by decide) (by decide) 2 (by decide) (by decide)) (by decide)
  have hb11 : ZI.mem (⟨374852517344121468172, 374852518043457470558⟩ : ZI) (beta_1 ((effective_adapting_responses (intermediate_values (0.4476, 0.4074)) 20 1000).1)) := by
    show ZI.mem (⟨374852517344121468172, 374852518043457470558⟩ : ZI)
      ((6.469 + (6.362 * (spow ((effective_adapting_responses (intermediate_values (0.4476, 0.4074)) 20 1000).1) 0.4495))) / (6.469 + (spow ((effective_adapting_responses (intermediate_values (0.4476, 0.4074)) 20 1000).1) 0.4495)))
    exact ZI.mem_lit (ZI.mem_div (ZI.mem_add (ZI.mem_decR 6469 3 (by norm_num) (by norm_num)) (ZI.mem_mul (ZI.mem_decR 6362 3 (by norm_num) (by norm_num)) hs11)) (ZI.mem_add (ZI.mem_decR 6469 3 (by norm_num) (by norm_num)) hs11) (by decide)) (by decide)
  have hs12 : ZI.mem (⟨627041897299520466403, 627041898145650022394⟩ : ZI) (spow ((effective_adapting_responses (intermediate_values (0.4476, 0.4074)) 20 1000).2.1) 0.4495) := by
    show ZI.mem (⟨627041897299520466403, 627041898145650022394⟩ : ZI)
      (spow ((effective_adapting_responses (intermediate_values (0.4476, 0.4074)) 20 1000).2.1) 0.4495)
    exact ZI.mem_lit (ZI.mem_spowZ hRo12 (ZI.mem_decR 4495 4 (by norm_num) (by norm_num)) (by decide) (by decide) 2 (by decide) (by decide)) (by decide)
  have hb12 : ZI.mem (⟨363920878759691940506, 363920879423954444846⟩ : ZI) (beta_1 ((effective_adapting_responses (intermediate_values (0.4476, 0.4074)) 20 1000).2.1)) := by
    show ZI.mem (⟨363920878759691940506, 363920879423954444846⟩ : ZI)
      ((6.469 + (6.362 * (spow ((effective_adapting_responses (intermediate_values (0.4476, 0.4074)) 20 1000).2.1) 0.4495))) / (6.469 + (spow ((effective_adapting_responses (intermediate_values (0.4476, 0.4074)) 20 1000).2.1) 0.4495)))
    exact ZI.mem_lit (ZI.mem_div (ZI.mem_add (ZI.mem_decR 6469 3 (by norm_num) (by norm_num)) (ZI.mem_mul (ZI.mem_decR 6362 3 (by norm_num) (by norm_num)) hs12)) (ZI.mem_add (ZI.mem_decR 6469 3 (by norm_num) (by norm_num)) hs12) (by decide)) (by decide)
  have hs13 : ZI.mem (⟨474197815870473552893, 474197816357297387761⟩ : ZI) (spow ((effective_adapting_responses (intermediate_values (0.4476, 0.4074)) 20 1000).2.2) 0.5128) := by
    show ZI.mem (⟨474197815870473552893, 474197816357297387761⟩ : ZI)
      (spow ((effective_adapting_responses (intermediate_values (0.4476, 0.4074)) 20 1000).2.2) 0.5128)
    exact ZI.mem_lit (ZI.mem_spowZ hRo13 (ZI.mem_decR 5128 4 (by norm_num) (by norm_num)) (by decide) (by decide) 2 (by decide) (by decide)) (by decide)
  have hb13 : ZI.mem (⟨278924811086016984211, 278924811424079195680⟩ : ZI) (beta_2 ((effective_adapting_responses (intermediate_values (0.4476, 0.4074)) 20 1000).2.2)) := by
    show ZI.mem (⟨278924811086016984211, 278924811424079195680⟩ : ZI)
      ((0.7844 * (8.414 + (8.091 * (spow ((effective_adapting_responses (intermediate_values (0.4476, 0.4074)) 20 1000).2.2) 0.5128)))) / (8.414 + (spow ((effective_adapting_responses (intermediate_values (0.4476, 0.4074)) 20 1000).2.2) 0.5128)))
    exact ZI.mem_lit (ZI.mem_div (ZI.mem_mul (ZI.mem_decR 7844 4 (by norm_num) (by norm_num)) (ZI.mem_add (ZI.mem_decR 8414 3 (by norm_num) (by norm_num)) (ZI.mem_mul (ZI.mem_decR 8091 3 (by norm_num) (by norm_num)) hs13))) (ZI.mem_add (ZI.mem_decR 8414 3 (by norm_num) (by norm_num)) hs13) (by decide)) (by decide)
  have hs21 : ZI.mem (⟨646911455715688566422, 646911456588629267642⟩ : ZI) (spow ((effective_adapting_responses (intermediate_values (0.3127, 0.3290)) 20 1000).1) 0.4495) := by
    show ZI.mem (⟨646911455715688566422, 646911456588629267642⟩ : ZI)
      (spow ((effective_adapting_responses (intermediate_values (0.3127, 0.3290)) 20 1000).1) 0.4495)
    exact ZI.mem_lit (ZI.mem_spowZ hRo21 (ZI.mem_decR 4495 4 (by norm_num) (by norm_num)) (by decide) (by decide) 2 (by decide) (by decide)) (by decide)
  have hb21 : ZI.mem (⟨368102373573082069992, 368102374250689625832⟩ : ZI) (beta_1 ((effective_adapting_responses (intermediate_values (0.3127, 0.3290)) 20 1000).1)) := by
    show ZI.mem (⟨368102373573082069992, 368102374250689625832⟩ : ZI)
      ((6.469 + (6.362 * (spow ((effective_adapting_responses (intermediate_values (0.3127, 0.3290)) 20 1000).1) 0.4495))) / (6.469 + (spow ((effective_adapting_responses (intermediate_values (0.3127, 0.3290)) 20 1000).1) 0.4495)))
    exact ZI.mem_lit (ZI.mem_div (ZI.mem_add (ZI.mem_decR 6469 3 (by norm_num) (by norm_num)) (ZI.mem_mul (ZI.mem_decR 6362 3 (by norm_num) (by norm_num)) hs21)) (ZI.mem_add (ZI.mem_decR 6469 3 (by norm_num) (by norm_num)) hs21) (by decide)) (by decide)
  have hs22 : ZI.mem (⟨646910885634156842103, 646910886507096774054⟩ : ZI) (spow ((effective_adapting_responses (intermediate_values (0.3127, 0.3290)) 20 1000).2.1) 0.4495) := by
    show ZI.mem (⟨646910885634156842103, 646910886507096774054⟩ : ZI)
      (spow ((effective_adapting_responses (intermediate_values (0.3127, 0.3290)) 20 1000).2.1) 0.4495)
    exact ZI.mem_lit (ZI.mem_spowZ hRo22 (ZI.mem_decR 4495 4 (by norm_num) (by norm_num)) (by decide) (by decide) 2 (by decide) (by decide)) (by decide)
  have hb22 : ZI.mem (⟨368102255443371742266, 368102256120978919837⟩ : ZI) (beta_1 ((effective_adapting_responses (intermediate_values (0.3127, 0.3290)) 20 1000).2.1)) := by
    show ZI.mem (⟨368102255443371742266, 368102256120978919837⟩ : ZI)
      ((6.469 + (6.362 * (spow ((effective_adapting_responses (intermediate_values (0.3127, 0.3290)) 20 1000).2.1) 0.4495))) / (6.469 + (spow ((effective_adapting_responses (intermediate_values (0.3127, 0.3290)) 20 1000).2.1) 0.4495)))
    exact ZI.mem_lit (ZI.mem_div (ZI.mem_add (ZI.mem_decR 6469 3 (by norm_num) (by norm_num)) (ZI.mem_mul (ZI.mem_decR 6362 3 (by norm_num) (by norm_num)) hs22)) (ZI.mem_add (ZI.mem_decR 6469 3 (by norm_num) (by norm_num)) hs22) (by decide)) (by decide)
  have hs23 : ZI.mem (⟨841450408991880605830, 841450410287353513562⟩ : ZI) (spow ((effective_adapting_responses (intermediate_values (0.3127, 0.3290)) 20 1000).2.2) 0.5128) := by
    show ZI.mem (⟨841450408991880605830, 841450410287353513562⟩ : ZI)
      (spow ((effective_adapting_responses (intermediate_values (0.3127, 0.3290)) 20 1000).2.2) 0.5128)
    exact ZI.mem_lit (ZI.mem_spowZ hRo23 (ZI.mem_decR 5128 4 (by norm_num) (by norm_num)) (by decide) (by decide) 2 (by decide) (by decide)) (by decide)
  have hb23 : ZI.mem (⟨356557350350306723816, 356557351113352967895⟩ : ZI) (beta_2 ((effective_adapting_responses (intermediate_values (0.3127, 0.3290)) 20 1000).2.2)) := by
    show ZI.mem (⟨356557350350306723816, 356557351113352967895⟩ : ZI)
      ((0.7844 * (8.414 + (8.091 * (spow ((effective_adapting_responses (intermediate_values (0.3127, 0.3290)) 20 1000).2.2) 0.5128)))) / (8.414 + (spow ((effective_adapting_responses (intermediate_values (0.3127, 0.3290)) 20 1000).2.2) 0.5128)))
    exact ZI.mem_lit (ZI.mem_div (ZI.mem_mul (ZI.mem_decR 7844 4 (by norm_num) (by norm_num)) (ZI.mem_add (ZI.mem_decR 8414 3 (by norm_num) (by norm_num)) (ZI.mem_mul (ZI.mem_decR 8091 3 (by norm_num) (by norm_num)) hs23))) (ZI.mem_add (ZI.mem_decR 8414 3 (by norm_num) (by norm_num)) hs23) (by decide)) (by decide)
  have hkb1 : ZI.mem (⟨99999999999999999999, 100000000000000000001⟩ : ZI) ((20 * ((intermediate_values (0.4476, 0.4074)).1) + 1) / (20 * ((intermediate_values (0.4476, 0.4074)).1) + 1)) := by
    show ZI.mem (⟨99999999999999999999, 100000000000000000001⟩ : ZI)
      (((20 * ((intermediate_values (0.4476, 0.4074)).1)) + 1) / ((20 * ((intermediate_values (0.4476, 0.4074)).1)) + 1))
    exact ZI.mem_lit (ZI.mem_div (ZI.mem_add (ZI.mem_mul (ZI.mem_intR 20 (by norm_num)) hx11) (ZI.mem_intR 1 (by norm_num))) (ZI.mem_add (ZI.mem_mul (ZI.mem_intR 20 (by norm_num)) hx11) (ZI.mem_intR 1 (by norm_num))) (by decide)) (by decide)
  have hkb2 : ZI.mem (⟨99999999999999999999, 100000000000000000001⟩ : ZI) ((20 * ((intermediate_values (0.3127, 0.3290)).1) + 1) / (20 * ((intermediate_values (0.3127, 0.3290)).1) + 1)) := by
    show ZI.mem (⟨99999999999999999999, 100000000000000000001⟩ : ZI)
      (((20 * ((intermediate_values (0.3127, 0.3290)).1)) + 1) / ((20 * ((intermediate_values (0.3127, 0.3290)).1)) + 1))
    exact ZI.mem_lit (ZI.mem_div (ZI.mem_add (ZI.mem_mul (ZI.mem_intR 20 (by norm_num)) hx21) (ZI.mem_intR 1 (by norm_num))) (ZI.mem_add (ZI.mem_mul (ZI.mem_intR 20 (by norm_num)) hx21) (ZI.mem_intR 1 (by norm_num))) (by decide)) (by decide)
  have hkb3 : ZI.mem (⟨99999999999999999998, 100000000000000000002⟩ : ZI) ((20 * ((intermediate_values (0.4476, 0.4074)).2.1) + 1) / (20 * ((intermediate_values (0.4476, 0.4074)).2.1) + 1)) := by
    show ZI.mem (⟨99999999999999999998, 100000000000000000002⟩ : ZI)
      (((20 * ((intermediate_values (0.4476, 0.4074)).2.1)) + 1) / ((20 * ((intermediate_values (0.4476, 0.4074)).2.1)) + 1))
    exact ZI.mem_lit (ZI.mem_div (ZI.mem_add (ZI.mem_mul (ZI.mem_intR 20 (by norm_num)) hx12) (ZI.mem_intR 1 (by norm_num))) (ZI.mem_add (ZI.mem_mul (ZI.mem_intR 20 (by norm_num)) hx12) (ZI.mem_intR 1 (by norm_num))) (by decide)) (by decide)
  have hkb4 : ZI.mem (⟨99999999999999999999, 100000000000000000001⟩ : ZI) ((20 * ((intermediate_values (0.3127, 0.3290)).2.1) + 1) / (20 * ((intermediate_values (0.3127, 0.3290)).2.1) + 1)) := by
    show ZI.mem (⟨99999999999999999999, 100000000000000000001⟩ : ZI)
      (((20 * ((intermediate_values (0.3127, 0.3290)).2.1)) + 1) / ((20 * ((intermediate_values (0.3127, 0.3290)).2.1)) + 1))
    exact ZI.mem_lit (ZI.mem_div (ZI.mem_add (ZI.mem_mul (ZI.mem_intR 20 (by norm_num)) hx22) (ZI.mem_intR 1 (by norm_num))) (ZI.mem_add (ZI.mem_mul (ZI.mem_intR 20 (by norm_num)) hx22) (ZI.mem_intR 1 (by norm_num))) (by decide)) (by decide)
  have hkt1 : ZI.mem (⟨99999999999767637436, 100000000000232362564⟩ : ZI) (spow ((20 * ((intermediate_values (0.4476, 0.4074)).1) + 1) / (20 * ((intermediate_values (0.4476, 0.4074)).1) + 1)) (2 / 3 * (beta_1 ((effective_adapting_responses (intermediate_values (0.4476, 0.4074)) 20 1000).1)))) := by
    show ZI.mem (⟨99999999999767637436, 100000000000232362564⟩ : ZI)
      (spow ((20 * ((intermediate_values (0.4476, 0.4074)).1) + 1) / (20 * ((intermediate_values (0.4476, 0.4074)).1) + 1)) ((2 / 3) * (beta_1 ((effective_adapting_responses (intermediate_values (0.4476, 0.4074)) 20 1000).1))))
    exact ZI.mem_lit (ZI.mem_spowZ hkb1 (ZI.mem_mul (ZI.mem_div (ZI.mem_intR 2 (by norm_num)) (ZI.mem_intR 3 (by norm_num)) (by decide)) hb11) (by decide) (by decide) 2 (by decide) (by decide)) (by decide)
  have hkt2 : ZI.mem (⟨99999999999771730251, 100000000000228269749⟩ : ZI) (spow ((20 * ((intermediate_values (0.3127, 0.3290)).1) + 1) / (20 * ((intermediate_values (0.3127, 0.3290)).1) + 1)) (2 / 3 * (beta_1 ((effective_adapting_responses (intermediate_values (0.3127, 0.3290)) 20 1000).1)))) := by
    show ZI.mem (⟨99999999999771730251, 100000000000228269749⟩ : ZI)
      (spow ((20 * ((intermediate_values (0.3127, 0.3290)).1) + 1) / (20 * ((intermediate_values (0.3127, 0.3290)).1) + 1)) ((2 / 3) * (beta_1 ((effective_adapting_responses (intermediate_values (0.3127, 0.3290)) 20 1000).1))))
    exact ZI.mem_lit (ZI.mem_spowZ hkb2 (ZI.mem_mul (ZI.mem_div (ZI.mem_intR 2 (by norm_num)) (ZI.mem_intR 3 (by norm_num)) (by decide)) hb21) (by decide) (by decide) 2 (by decide) (by decide)) (by decide)
  have hkt3 : ZI.mem (⟨99999999999884593703, 100000000000115406297⟩ : ZI) (spow ((20 * ((intermediate_values (0.4476, 0.4074)).2.1) + 1) / (20 * ((intermediate_values (0.4476, 0.4074)).2.1) + 1)) (1 / 3 * (beta_1 ((effective_adapting_responses (intermediate_values (0.4476, 0.4074)) 20 1000).2.1)))) := by
    show ZI.mem (⟨99999999999884593703, 100000000000115406297⟩ : ZI)
      (spow ((20 * ((intermediate_values (0.4476, 0.4074)).2.1) + 1) / (20 * ((intermediate_values (0.4476, 0.4074)).2.1) + 1)) ((1 / 3) * (beta_1 ((effective_adapting_responses (intermediate_values (0.4476, 0.4074)) 20 1000).2.1))))
    exact ZI.mem_lit (ZI.mem_spowZ hkb3 (ZI.mem_mul (ZI.mem_div (ZI.mem_intR 1 (by norm_num)) (ZI.mem_intR 3 (by norm_num)) (by decide)) hb12) (by decide) (by decide) 2 (by decide) (by decide)) (by decide)
  have hkt4 : ZI.mem (⟨99999999999883326057, 100000000000116673943⟩ : ZI) (spow ((20 * ((intermediate_values (0.3127, 0.3290)).2.1) + 1) / (20 * ((intermediate_values (0.3127, 0.3290)).2.1) + 1)) (1 / 3 * (beta_1 ((effective_adapting_responses (intermediate_values (0.3127, 0.3290)) 20 1000).2.1)))) := by
    show ZI.mem (⟨99999999999883326057, 100000000000116673943⟩ : ZI)
      (spow ((20 * ((intermediate_values (0.3127, 0.3290)).2.1) + 1) / (20 * ((intermediate_values (0.3127, 0.3290)).2.1) + 1)) ((1 / 3) * (beta_1 ((effective_adapting_responses (intermediate_values (0.3127, 0.3290)) 20 1000).2.1))))
    exact ZI.mem_lit (ZI.mem_spowZ hkb4 (ZI.mem_mul (ZI.mem_div (ZI.mem_intR 1 (by norm_num)) (ZI.mem_intR 3 (by norm_num)) (by decide)) hb22) (by decide) (by decide) 2 (by decide) (by decide)) (by decide)
  have hK : ZI.mem (⟨99999999999307287447, 100000000000692712556⟩ : ZI) (K_coefficient (intermediate_values (0.4476, 0.4074)) (intermediate_values (0.3127, 0.3290)) (exponential_factors (effective_adapting_responses (intermediate_values (0.4476, 0.4074)) 20 1000)) (exponential_factors (effective_adapting_responses (intermediate_values (0.3127, 0.3290)) 20 1000)) 20 1) := by
    show ZI.mem (⟨99999999999307287447, 100000000000692712556⟩ : ZI)
      (((spow ((20 * ((intermediate_values (0.4476, 0.4074)).1) + 1) / (20 * ((intermediate_values (0.4476, 0.4074)).1) + 1)) (2 / 3 * (beta_1 ((effective_adapting_responses (intermediate_values (0.4476, 0.4074)) 20 1000).1)))) / (spow ((20 * ((intermediate_values (0.3127, 0.3290)).1) + 1) / (20 * ((intermediate_values (0.3127, 0.3290)).1) + 1)) (2 / 3 * (beta_1 ((effective_adapting_responses (intermediate_values (0.3127, 0.3290)) 20 1000).1))))) * ((spow ((20 * ((intermediate_values (0.4476, 0.4074)).2.1) + 1) / (20 * ((intermediate_values (0.4476, 0.4074)).2.1) + 1)) (1 / 3 * (beta_1 ((effective_adapting_responses (intermediate_values (0.4476, 0.4074)) 20 1000).2.1)))) / (spow ((20 * ((intermediate_values (0.3127, 0.3290)).2.1) + 1) / (20 * ((intermediate_values (0.3127, 0.3290)).2.1) + 1)) (1 / 3 * (beta_1 ((effective_adapting_responses (intermediate_values (0.3127, 0.3290)) 20 1000).2.1))))))
    exact ZI.mem_lit (ZI.mem_mul (ZI.mem_div hkt1 hkt2 (by decide)) (ZI.mem_div hkt3 hkt4 (by decide))) (by decide)
  have hq40024 : ((0.40024 : ℚ) : ℝ) = ((40024 : ℤ) : ℝ) / 10 ^ 5 := by norm_num
  have hq70760 : ((0.70760 : ℚ) : ℝ) = ((70760 : ℤ) : ℝ) / 10 ^ 5 := by norm_num
  have hqm8081 : ((-0.08081 : ℚ) : ℝ) = ((-8081 : ℤ) : ℝ) / 10 ^ 5 := by norm_num
  have hqm22630 : ((-0.22630 : ℚ) : ℝ) = ((-22630 : ℤ) : ℝ) / 10 ^ 5 := by norm_num
  have hq116532 : ((1.16532 : ℚ) : ℝ) = ((116532 : ℤ) : ℝ) / 10 ^ 5 := by norm_num
  have hq4570 : ((0.04570 : ℚ) : ℝ) = ((4570 : ℤ) : ℝ) / 10 ^ 5 := by norm_num
  have hq0 : ((0 : ℚ) : ℝ) = ((0 : ℤ) : ℝ) / 10 ^ 5 := by norm_num
  have hq91822 : ((0.91822 : ℚ) : ℝ) = ((91822 : ℤ) : ℝ) / 10 ^ 5 := by norm_num
  have hR11 : ZI.mem (⟨2582442730000000000000, 2582442730000000000000⟩ : ZI) ((XYZ_to_RGB_CIE1994 (28, 21.26, 5.27)).1) := by
    show ZI.mem (⟨2582442730000000000000, 2582442730000000000000⟩ : ZI)
      (((0.40024 : ℚ) : ℝ) * 28 + ((0.70760 : ℚ) : ℝ) * 21.26 + ((-0.08081 : ℚ) : ℝ) * 5.27)
    rw [hq40024, hq70760, hqm8081]
    exact ZI.mem_lit (ZI.mem_add (ZI.mem_add (ZI.mem_mul (ZI.mem_ofDec 40024 5 (by norm_num)) (ZI.mem_intR 28 (by norm_num))) (ZI.mem_mul (ZI.mem_ofDec 70760 5 (by norm_num)) (ZI.mem_decR 2126 2 (by norm_num) (by norm_num)))) (ZI.mem_mul (ZI.mem_ofDec (-8081) 5 (by norm_num)) (ZI.mem_decR 527 2 (by norm_num) (by norm_num)))) (by decide)
  have hR12 : ZI.mem (⟨1867914220000000000000, 1867914220000000000000⟩ : ZI) ((XYZ_to_RGB_CIE1994 (28, 21.26, 5.27)).2.1) := by
    show ZI.mem (⟨1867914220000000000000, 1867914220000000000000⟩ : ZI)
      (((-0.22630 : ℚ) : ℝ) * 28 + ((1.16532 : ℚ) : ℝ) * 21.26 + ((0.04570 : ℚ) : ℝ) * 5.27)
    rw [hqm22630, hq116532, hq4570]
    exact ZI.mem_lit (ZI.mem_add (ZI.mem_add (ZI.mem_mul (ZI.mem_ofDec (-22630) 5 (by norm_num)) (ZI.mem_intR 28 (by norm_num))) (ZI.mem_mul (ZI.mem_ofDec 116532 5 (by norm_num)) (ZI.mem_decR 2126 2 (by norm_num) (by norm_num)))) (ZI.mem_mul (ZI.mem_ofDec 4570 5 (by norm_num)) (ZI.mem_decR 527 2 (by norm_num) (by norm_num)))) (by decide)
  have hR13 : ZI.mem (⟨483901940000000000000, 483901940000000000000⟩ : ZI) ((XYZ_to_RGB_CIE1994 (28, 21.26, 5.27)).2.2) := by
    show ZI.mem (⟨483901940000000000000, 483901940000000000000⟩ : ZI)
      (((0 : ℚ) : ℝ) * 28 + ((0 : ℚ) : ℝ) * 21.26 + ((0.91822 : ℚ) : ℝ) * 5.27)
    rw [hq0, hq91822]
    exact ZI.mem_lit (ZI.mem_add (ZI.mem_add (ZI.mem_mul (ZI.mem_ofDec 0 5 (by norm_num)) (ZI.mem_intR 28 (by norm_num))) (ZI.mem_mul (ZI.mem_ofDec 0 5 (by norm_num)) (ZI.mem_decR 2126 2 (by norm_num) (by norm_num)))) (ZI.mem_mul (ZI.mem_ofDec 91822 5 (by norm_num)) (ZI.mem_decR 527 2 (by norm_num) (by norm_num)))) (by decide)
  have hccA1 : ZI.mem (⟨99999999999782029367, 100000000000217970634⟩ : ZI) (spow (K_coefficient (intermediate_values (0.4476, 0.4074)) (intermediate_values (0.3127, 0.3290)) (exponential_factors (effective_adapting_responses (intermediate_values (0.4476, 0.4074)) 20 1000)) (exponential_factors (effective_adapting_responses (intermediate_values (0.3127, 0.3290)) 20 1000)) 20 1) (1 / (beta_1 ((effective_adapting_responses (intermediate_values (0.3127, 0.3290)) 20 1000).1)))) := by
    show ZI.mem (⟨99999999999782029367, 100000000000217970634⟩ : ZI)
      (spow (K_coefficient (intermediate_values (0.4476, 0.4074)) (intermediate_values (0.3127, 0.3290)) (exponential_factors (effective_adapting_responses (intermediate_values (0.4476, 0.4074)) 20 1000)) (exponential_factors (effective_adapting_responses (intermediate_values (0.3127, 0.3290)) 20 1000)) 20 1) (1 / (beta_1 ((effective_adapting_responses (intermediate_values (0.3127, 0.3290)) 20 1000).1))))
    exact ZI.mem_lit (ZI.mem_spowZ hK (ZI.mem_div (ZI.mem_intR 1 (by norm_num)) hb21 (by decide)) (by decide) (by decide) 2 (by decide) (by decide)) (by decide)
  have hrb1 : ZI.mem (⟨114774392845637946532, 114774392845637946534⟩ : ZI) ((((XYZ_to_RGB_CIE1994 (28, 21.26, 5.27)).1) + 1) / (20 * ((intermediate_values (0.4476, 0.4074)).1) + 1)) := by
    show ZI.mem (⟨114774392845637946532, 114774392845637946534⟩ : ZI)
      ((((XYZ_to_RGB_CIE1994 (28, 21.26, 5.27)).1) + 1) / ((20 * ((intermediate_values (0.4476, 0.4074)).1)) + 1))
    exact ZI.mem_lit (ZI.mem_div (ZI.mem_add hR11 (ZI.mem_intR 1 (by norm_num))) (ZI.mem_add (ZI.mem_mul (ZI.mem_intR 20 (by norm_num)) hx11) (ZI.mem_intR 1 (by norm_num))) (by decide)) (by decide)
  have hccB1 : ZI.mem (⟨115064782927158877454, 115064782987228169037⟩ : ZI) (spow ((((XYZ_to_RGB_CIE1994 (28, 21.26, 5.27)).1) + 1) / (20 * ((intermediate_values (0.4476, 0.4074)).1) + 1)) ((beta_1 ((effective_adapting_responses (intermediate_values (0.4476, 0.4074)) 20 1000).1)) / (beta_1 ((effective_adapting_responses (intermediate_values (0.3127, 0.3290)) 20 1000).1)))) := by
    show ZI.mem (⟨115064782927158877454, 115064782987228169037⟩ : ZI)
      (spow ((((XYZ_to_RGB_CIE1994 (28, 21.26, 5.27)).1) + 1) / (20 * ((intermediate_values (0.4476, 0.4074)).1) + 1)) ((beta_1 ((effective_adapting_responses (intermediate_values (0.4476, 0.4074)) 20 1000).1)) / (beta_1 ((effective_adapting_responses (intermediate_values (0.3127, 0.3290)) 20 1000).1))))
    exact ZI.mem_lit (ZI.mem_spowZ hrb1 (ZI.mem_div hb11 hb21 (by decide)) (by decide) (by decide) 2 (by decide) (by decide)) (by decide)
  have hcc1 : ZI.mem (⟨2316369010119117218836, 2316369011391110765030⟩ : ZI) ((corresponding_colour (XYZ_to_RGB_CIE1994 (28, 21.26, 5.27)) (intermediate_values (0.4476, 0.4074)) (intermediate_values (0.3127, 0.3290)) (exponential_factors (effective_adapting_responses (intermediate_values (0.4476, 0.4074)) 20 1000)) (exponential_factors (effective_adapting_responses (intermediate_values (0.3127, 0.3290)) 20 1000)) 20 (K_coefficient (intermediate_values (0.4476, 0.4074)) (intermediate_values (0.3127, 0.3290)) (exponential_factors (effective_adapting_responses (intermediate_values (0.4476, 0.4074)) 20 1000)) (exponential_factors (effective_adapting_responses (intermediate_values (0.3127, 0.3290)) 20 1000)) 20 1) 1).1) := by
    show ZI.mem (⟨2316369010119117218836, 2316369011391110765030⟩ : ZI)
      (((((20 * ((intermediate_values (0.3127, 0.3290)).1)) + 1) * (spow (K_coefficient (intermediate_values (0.4476, 0.4074)) (intermediate_values (0.3127, 0.3290)) (exponential_factors (effective_adapting_responses (intermediate_values (0.4476, 0.4074)) 20 1000)) (exponential_factors (effective_adapting_responses (intermediate_values (0.3127, 0.3290)) 20 1000)) 20 1) (1 / (beta_1 ((effective_adapting_responses (intermediate_values (0.3127, 0.3290)) 20 1000).1))))) * (spow ((((XYZ_to_RGB_CIE1994 (28, 21.26, 5.27)).1) + 1) / (20 * ((intermediate_values (0.4476, 0.4074)).1) + 1)) ((beta_1 ((effective_adapting_responses (intermediate_values (0.4476, 0.4074)) 20 1000).1)) / (beta_1 ((effective_adapting_responses (intermediate_values (0.3127, 0.3290)) 20 1000).1))))) - 1)
    exact ZI.mem_lit (ZI.mem_sub (ZI.mem_mul (ZI.mem_mul (ZI.mem_add (ZI.mem_mul (ZI.mem_intR 20 (by norm_num)) hx21) (ZI.mem_intR 1 (by norm_num))) hccA1) hccB1) (ZI.mem_intR 1 (by norm_num))) (by decide)
  have hccA2 : ZI.mem (⟨99999999999782029299, 100000000000217970702⟩ : ZI) (spow (K_coefficient (intermediate_values (0.4476, 0.4074)) (intermediate_values (0.3127, 0.3290)) (exponential_factors (effective_adapting_responses (intermediate_values (0.4476, 0.4074)) 20 1000)) (exponential_factors (effective_adapting_responses (intermediate_values (0.3127, 0.3290)) 20 1000)) 20 1) (1 / (beta_1 ((effective_adapting_responses (intermediate_values (0.3127, 0.3290)) 20 1000).2.1)))) := by
    show ZI.mem (⟨99999999999782029299, 100000000000217970702⟩ : ZI)
      (spow (K_coefficient (intermediate_values (0.4476, 0.4074)) (intermediate_values (0.3127, 0.3290)) (exponential_factors (effective_adapting_responses (intermediate_values (0.4476, 0.4074)) 20 1000)) (exponential_factors (effective_adapting_responses (intermediate_values (0.3127, 0.3290)) 20 1000)) 20 1) (1 / (beta_1 ((effective_adapting_responses (intermediate_values (0.3127, 0.3290)) 20 1000).2.1))))
    exact ZI.mem_lit (ZI.mem_spowZ hK (ZI.mem_div (ZI.mem_intR 1 (by norm_num)) hb22 (by decide)) (by decide) (by decide) 2 (by decide) (by decide)) (by decide)
  have hrb2 : ZI.mem (⟨100101918469502321437, 100101918469502321439⟩ : ZI) ((((XYZ_to_RGB_CIE1994 (28, 21.26, 5.27)).2.1) + 1) / (20 * ((intermediate_values (0.4476, 0.4074)).2.1) + 1)) := by
    show ZI.mem (⟨100101918469502321437, 100101918469502321439⟩ : ZI)
      ((((XYZ_to_RGB_CIE1994 (28, 21.26, 5.27)).2.1) + 1) / ((20 * ((intermediate_values (0.4476, 0.4074)).2.1)) + 1))
    exact ZI.mem_lit (ZI.mem_div (ZI.mem_add hR12 (ZI.mem_intR 1 (by norm_num))) (ZI.mem_add (ZI.mem_mul (ZI.mem_intR 20 (by norm_num)) hx12) (ZI.mem_intR 1 (by norm_num))) (by decide)) (by decide)
  have hccB2 : ZI.mem (⟨100100760165699377928, 100100760166259131772⟩ : ZI) (spow ((((XYZ_to_RGB_CIE1994 (28, 21.26, 5.27)).2.1) + 1) / (20 * ((intermediate_values (0.4476, 0.4074)).2.1) + 1)) ((beta_1 ((effective_adapting_responses (intermediate_values (0.4476, 0.4074)) 20 1000).2.1)) / (beta_1 ((effective_adapting_responses (intermediate_values (0.3127, 0.3290)) 20 1000).2.1)))) := by
    show ZI.mem (⟨100100760165699377928, 100100760166259131772⟩ : ZI)
      (spow ((((XYZ_to_RGB_CIE1994 (28, 21.26, 5.27)).2.1) + 1) / (20 * ((intermediate_values (0.4476, 0.4074)).2.1) + 1)) ((beta_1 ((effective_adapting_responses (intermediate_values (0.4476, 0.4074)) 20 1000).2.1)) / (beta_1 ((effective_adapting_responses (intermediate_values (0.3127, 0.3290)) 20 1000).2.1))))
    exact ZI.mem_lit (ZI.mem_spowZ hrb2 (ZI.mem_div hb12 hb22 (by decide)) (by decide) (by decide) 2 (by decide) (by decide)) (by decide)
  have hcc2 : ZI.mem (⟨2002119492863609254405, 2002119492884528114098⟩ : ZI) ((corresponding_colour (XYZ_to_RGB_CIE1994 (28, 21.26, 5.27)) (intermediate_values (0.4476, 0.4074)) (intermediate_values (0.3127, 0.3290)) (exponential_factors (effective_adapting_responses (intermediate_values (0.4476, 0.4074)) 20 1000)) (exponential_factors (effective_adapting_responses (intermediate_values (0.3127, 0.3290)) 20 1000)) 20 (K_coefficient (intermediate_values (0.4476, 0.4074)) (intermediate_values (0.3127, 0.3290)) (exponential_factors (effective_adapting_responses (intermediate_values (0.4476, 0.4074)) 20 1000)) (exponential_factors (effective_adapting_responses (intermediate_values (0.3127, 0.3290)) 20 1000)) 20 1) 1).2.1) := by
    show ZI.mem (⟨2002119492863609254405, 2002119492884528114098⟩ : ZI)
      (((((20 * ((intermediate_values (0.3127, 0.3290)).2.1)) + 1) * (spow (K_coefficient (intermediate_values (0.4476, 0.4074)) (intermediate_values (0.3127, 0.3290)) (exponential_factors (effective_adapting_responses (intermediate_values (0.4476, 0.4074)) 20 1000)) (exponential_factors (effective_adapting_responses (intermediate_values (0.3127, 0.3290)) 20 1000)) 20 1) (1 / (beta_1 ((effective_adapting_responses (intermediate_values (0.3127, 0.3290)) 20 1000).2.1))))) * (spow ((((XYZ_to_RGB_CIE1994 (28, 21.26, 5.27)).2.1) + 1) / (20 * ((intermediate_values (0.4476, 0.4074)).2.1) + 1)) ((beta_1 ((effective_adapting_responses (intermediate_values (0.4476, 0.4074)) 20 1000).2.1)) / (beta_1 ((effective_adapting_responses (intermediate_values (0.3127, 0.3290)) 20 1000).2.1))))) - 1)
    exact ZI.mem_lit (ZI.mem_sub (ZI.mem_mul (ZI.mem_mul (ZI.mem_add (ZI.mem_mul (ZI.mem_intR 20 (by norm_num)) hx22) (ZI.mem_intR 1 (by norm_num))) hccA2) hccB2) (ZI.mem_intR 1 (by norm_num))) (by decide)
  have hccA3 : ZI.mem (⟨99999999999775136092, 100000000000224863909⟩ : ZI) (spow (K_coefficient (intermediate_values (0.4476, 0.4074)) (intermediate_values (0.3127, 0.3290)) (exponential_factors (effective_adapting_responses (intermediate_values (0.4476, 0.4074)) 20 1000)) (exponential_factors (effective_adapting_responses (intermediate_values (0.3127, 0.3290)) 20 1000)) 20 1) (1 / (beta_2 ((effective_adapting_responses (intermediate_values (0.3127, 0.3290)) 20 1000).2.2)))) := by
    show ZI.mem (⟨99999999999775136092, 100000000000224863909⟩ : ZI)
      (spow (K_coefficient (intermediate_values (0.4476, 0.4074)) (intermediate_values (0.3127, 0.3290)) (exponential_factors (effective_adapting_responses (intermediate_values (0.4476, 0.4074)) 20 1000)) (exponential_factors (effective_adapting_responses (intermediate_values (0.3127, 0.3290)) 20 1000)) 20 1) (1 / (beta_2 ((effective_adapting_responses (intermediate_values (0.3127, 0.3290)) 20 1000).2.2))))
    exact ZI.mem_lit (ZI.mem_spowZ hK (ZI.mem_div (ZI.mem_intR 1 (by norm_num)) hb23 (by decide)) (by decide) (by decide) 2 (by decide) (by decide)) (by decide)
  have hrb3 : ZI.mem (⟨77479873011799085281, 77479873011799085284⟩ : ZI) ((((XYZ_to_RGB_CIE1994 (28, 21.26, 5.27)).2.2) + 1) / (20 * ((intermediate_values (0.4476, 0.4074)).2.2) + 1)) := by
    show ZI.mem (⟨77479873011799085281, 77479873011799085284⟩ : ZI)
      ((((XYZ_to_RGB_CIE1994 (28, 21.26, 5.27)).2.2) + 1) / ((20 * ((intermediate_values (0.4476, 0.4074)).2.2)) + 1))
    exact ZI.mem_lit (ZI.mem_div (ZI.mem_add hR13 (ZI.mem_intR 1 (by norm_num))) (ZI.mem_add (ZI.mem_mul (ZI.mem_intR 20 (by norm_num)) hx13) (ZI.mem_intR 1 (by norm_num))) (by decide)) (by decide)
  have hccB3 : ZI.mem (⟨81905975204049626002, 81905975285920431690⟩ : ZI) (spow ((((XYZ_to_RGB_CIE1994 (28, 21.26, 5.27)).2.2) + 1) / (20 * ((intermediate_values (0.4476, 0.4074)).2.2) + 1)) ((beta_2 ((effective_adapting_responses (intermediate_values (0.4476, 0.4074)) 20 1000).2.2)) / (beta_2 ((effective_adapting_responses (intermediate_values (0.3127, 0.3290)) 20 1000).2.2)))) := by
    show ZI.mem (⟨81905975204049626002, 81905975285920431690⟩ : ZI)
      (spow ((((XYZ_to_RGB_CIE1994 (28, 21.26, 5.27)).2.2) + 1) / (20 * ((intermediate_values (0.4476, 0.4074)).2.2) + 1)) ((beta_2 ((effective_adapting_responses (intermediate_values (0.4476, 0.4074)) 20 1000).2.2)) / (beta_2 ((effective_adapting_responses (intermediate_values (0.3127, 0.3290)) 20 1000).2.2))))
    exact ZI.mem_lit (ZI.mem_spowZ hrb3 (ZI.mem_div hb13 hb23 (by decide)) (by decide) (by decide) 2 (by decide) (by decide)) (by decide)
  have hcc3 : ZI.mem (⟨1620016646381477672246, 1620016648108491155926⟩ : ZI) ((corresponding_colour (XYZ_to_RGB_CIE1994 (28, 21.26, 5.27)) (intermediate_values (0.4476, 0.4074)) (intermediate_values (0.3127, 0.3290)) (exponential_factors (effective_adapting_responses (intermediate_values (0.4476, 0.4074)) 20 1000)) (exponential_factors (effective_adapting_responses (intermediate_values (0.3127, 0.3290)) 20 1000)) 20 (K_coefficient (intermediate_values (0.4476, 0.4074)) (intermediate_values (0.3127, 0.3290)) (exponential_factors (effective_adapting_responses (intermediate_values (0.4476, 0.4074)) 20 1000)) (exponential_factors (effective_adapting_responses (intermediate_values (0.3127, 0.3290)) 20 1000)) 20 1) 1).2.2) := by
    show ZI.mem (⟨1620016646381477672246, 1620016648108491155926⟩ : ZI)
      (((((20 * ((intermediate_values (0.3127, 0.3290)).2.2)) + 1) * (spow (K_coefficient (intermediate_values (0.4476, 0.4074)) (intermediate_values (0.3127, 0.3290)) (exponential_factors (effective_adapting_responses (intermediate_values (0.4476, 0.4074)) 20 1000)) (exponential_factors (effective_adapting_responses (intermediate_values (0.3127, 0.3290)) 20 1000)) 20 1) (1 / (beta_2 ((effective_adapting_responses (intermediate_values (0.3127, 0.3290)) 20 1000).2.2))))) * (spow ((((XYZ_to_RGB_CIE1994 (28, 21.26, 5.27)).2.2) + 1) / (20 * ((intermediate_values (0.4476, 0.4074)).2.2) + 1)) ((beta_2 ((effective_adapting_responses (intermediate_values (0.4476, 0.4074)) 20 1000).2.2)) / (beta_2 ((effective_adapting_responses (intermediate_values (0.3127, 0.3290)) 20 1000).2.2))))) - 1)
    exact ZI.mem_lit (ZI.mem_sub (ZI.mem_mul (ZI.mem_mul (ZI.mem_add (ZI.mem_mul (ZI.mem_intR 20 (by norm_num)) hx23) (ZI.mem_intR 1 (by norm_num))) hccA3) hccB3) (ZI.mem_intR 1 (by norm_num))) (by decide)
  have hM11 : (MATRIX_RGB_TO_XYZ_CIE1994.1.1 : ℝ) = ((728325000 : ℤ) : ℝ) / ((391585973 : ℤ) : ℝ) := by
    norm_num [MATRIX_RGB_TO_XYZ_CIE1994, inv3, det3, MATRIX_XYZ_TO_RGB_CIE1994]
  have hM12 : (MATRIX_RGB_TO_XYZ_CIE1994.1.2.1 : ℝ) = ((-442250000 : ℤ) : ℝ) / ((391585973 : ℤ) : ℝ) := by
    norm_num [MATRIX_RGB_TO_XYZ_CIE1994, inv3, det3, MATRIX_XYZ_TO_RGB_CIE1994]
  have hM13 : (MATRIX_RGB_TO_XYZ_CIE1994.1.2.2 : ℝ) = ((3953338412500 : ℤ) : ℝ) / ((17978103606403 : ℤ) : ℝ) := by
    norm_num [MATRIX_RGB_TO_XYZ_CIE1994, inv3, det3, MATRIX_XYZ_TO_RGB_CIE1994]
  have hM21 : (MATRIX_RGB_TO_XYZ_CIE1994.2.1.1 : ℝ) = ((141437500 : ℤ) : ℝ) / ((391585973 : ℤ) : ℝ) := by
    norm_num [MATRIX_RGB_TO_XYZ_CIE1994, inv3, det3, MATRIX_XYZ_TO_RGB_CIE1994]
  have hM22 : (MATRIX_RGB_TO_XYZ_CIE1994.2.1.2.1 : ℝ) = ((250150000 : ℤ) : ℝ) / ((391585973 : ℤ) : ℝ) := by
    norm_num [MATRIX_RGB_TO_XYZ_CIE1994, inv3, det3, MATRIX_XYZ_TO_RGB_CIE1994]
  have hM23 : (MATRIX_RGB_TO_XYZ_CIE1994.2.1.2.2 : ℝ) = ((-114531250 : ℤ) : ℝ) / ((17978103606403 : ℤ) : ℝ) := by
    norm_num [MATRIX_RGB_TO_XYZ_CIE1994, inv3, det3, MATRIX_XYZ_TO_RGB_CIE1994]
  have hM31 : (MATRIX_RGB_TO_XYZ_CIE1994.2.2.1 : ℝ) = ((0 : ℤ) : ℝ) / ((1 : ℤ) : ℝ) := by
    norm_num [MATRIX_RGB_TO_XYZ_CIE1994, inv3, det3, MATRIX_XYZ_TO_RGB_CIE1994]
  have hM32 : (MATRIX_RGB_TO_XYZ_CIE1994.2.2.2.1 : ℝ) = ((0 : ℤ) : ℝ) / ((1 : ℤ) : ℝ) := by
    norm_num [MATRIX_RGB_TO_XYZ_CIE1994, inv3, det3, MATRIX_XYZ_TO_RGB_CIE1994]
  have hM33 : (MATRIX_RGB_TO_XYZ_CIE1994.2.2.2.2 : ℝ) = ((50000 : ℤ) : ℝ) / ((45911 : ℤ) : ℝ) := by
    norm_num [MATRIX_RGB_TO_XYZ_CIE1994, inv3, det3, MATRIX_XYZ_TO_RGB_CIE1994]
  have hX2a : ZI.mem (⟨2403379519272929264608, 2403379522042147512864⟩ : ZI) ((chromatic_adaptation_CIE1994 (28, 21.26, 5.27) (0.4476, 0.4074) (0.3127, 0.3290) 20 1000 1000 1).1) := by
    show ZI.mem (⟨2403379519272929264608, 2403379522042147512864⟩ : ZI)
      ((MATRIX_RGB_TO_XYZ_CIE1994.1.1 : ℝ) * (corresponding_colour (XYZ_to_RGB_CIE1994 (28, 21.26, 5.27)) (intermediate_values (0.4476, 0.4074)) (intermediate_values (0.3127, 0.3290)) (exponential_factors (effective_adapting_responses (intermediate_values (0.4476, 0.4074)) 20 1000)) (exponential_factors (effective_adapting_responses (intermediate_values (0.3127, 0.3290)) 20 1000)) 20 (K_coefficient (intermediate_values (0.4476, 0.4074)) (intermediate_values (0.3127, 0.3290)) (exponential_factors (effective_adapting_responses (intermediate_values (0.4476, 0.4074)) 20 1000)) (exponential_factors (effective_adapting_responses (intermediate_values (0.3127, 0.3290)) 20 1000)) 20 1) 1).1 + (MATRIX_RGB_TO_XYZ_CIE1994.1.2.1 : ℝ) * (corresponding_colour (XYZ_to_RGB_CIE1994 (28, 21.26, 5.27)) (intermediate_values (0.4476, 0.4074)) (intermediate_values (0.3127, 0.3290)) (exponential_factors (effective_adapting_responses (intermediate_values (0.4476, 0.4074)) 20 1000)) (exponential_factors (effective_adapting_responses (intermediate_values (0.3127, 0.3290)) 20 1000)) 20 (K_coefficient (intermediate_values (0.4476, 0.4074)) (intermediate_values (0.3127, 0.3290)) (exponential_factors (effective_adapting_responses (intermediate_values (0.4476, 0.4074)) 20 1000)) (exponential_factors (effective_adapting_responses (intermediate_values (0.3127, 0.3290)) 20 1000)) 20 1) 1).2.1 + (MATRIX_RGB_TO_XYZ_CIE1994.1.2.2 : ℝ) * (corresponding_colour (XYZ_to_RGB_CIE1994 (28, 21.26, 5.27)) (intermediate_values (0.4476, 0.4074)) (intermediate_values (0.3127, 0.3290)) (exponential_factors (effective_adapting_responses (intermediate_values (0.4476, 0.4074)) 20 1000)) (exponential_factors (effective_adapting_responses (intermediate_values (0.3127, 0.3290)) 20 1000)) 20 (K_coefficient (intermediate_values (0.4476, 0.4074)) (intermediate_values (0.3127, 0.3290)) (exponential_factors (effective_adapting_responses (intermediate_values (0.4476, 0.4074)) 20 1000)) (exponential_factors (effective_adapting_responses (intermediate_values (0.3127, 0.3290)) 20 1000)) 20 1) 1).2.2)
    rw [hM11, hM12, hM13]
    exact ZI.mem_lit (ZI.mem_add (ZI.mem_add (ZI.mem_mul (ZI.mem_div (ZI.mem_intR 728325000 (by norm_num)) (ZI.mem_intR 391585973 (by norm_num)) (by decide)) hcc1) (ZI.mem_mul (ZI.mem_div (ZI.mem_intR (-442250000) (by norm_num)) (ZI.mem_intR 391585973 (by norm_num)) (by decide)) hcc2)) (ZI.mem_mul (ZI.mem_div (ZI.mem_intR 3953338412500 (by norm_num)) (ZI.mem_intR 17978103606403 (by norm_num)) (by decide)) hcc3)) (by decide)
  have hX2b : ZI.mem (⟨2115621214185109834617, 2115621214657917240916⟩ : ZI) ((chromatic_adaptation_CIE1994 (28, 21.26, 5.27) (0.4476, 0.4074) (0.3127, 0.3290) 20 1000 1000 1).2.1) := by
    show ZI.mem (⟨2115621214185109834617, 2115621214657917240916⟩ : ZI)
      ((MATRIX_RGB_TO_XYZ_CIE1994.2.1.1 : ℝ) * (corresponding_colour (XYZ_to_RGB_CIE1994 (28, 21.26, 5.27)) (intermediate_values (0.4476, 0.4074)) (intermediate_values (0.3127, 0.3290)) (exponential_factors (effective_adapting_responses (intermediate_values (0.4476, 0.4074)) 20 1000)) (exponential_factors (effective_adapting_responses (intermediate_values (0.3127, 0.3290)) 20 1000)) 20 (K_coefficient (intermediate_values (0.4476, 0.4074)) (intermediate_values (0.3127, 0.3290)) (exponential_factors (effective_adapting_responses (intermediate_values (0.4476, 0.4074)) 20 1000)) (exponential_factors (effective_adapting_responses (intermediate_values (0.3127, 0.3290)) 20 1000)) 20 1) 1).1 + (MATRIX_RGB_TO_XYZ_CIE1994.2.1.2.1 : ℝ) * (corresponding_colour (XYZ_to_RGB_CIE1994 (28, 21.26, 5.27)) (intermediate_values (0.4476, 0.4074)) (intermediate_values (0.3127, 0.3290)) (exponential_factors (effective_adapting_responses (intermediate_values (0.4476, 0.4074)) 20 1000)) (exponential_factors (effective_adapting_responses (intermediate_values (0.3127, 0.3290)) 20 1000)) 20 (K_coefficient (intermediate_values (0.4476, 0.4074)) (intermediate_values (0.3127, 0.3290)) (exponential_factors (effective_adapting_responses (intermediate_values (0.4476, 0.4074)) 20 1000)) (exponential_factors (effective_adapting_responses (intermediate_values (0.3127, 0.3290)) 20 1000)) 20 1) 1).2.1 + (MATRIX_RGB_TO_XYZ_CIE1994.2.1.2.2 : ℝ) * (corresponding_colour (XYZ_to_RGB_CIE1994 (28, 21.26, 5.27)) (intermediate_values (0.4476, 0.4074)) (intermediate_values (0.3127, 0.3290)) (exponential_factors (effective_adapting_responses (intermediate_values (0.4476, 0.4074)) 20 1000)) (exponential_factors (effective_adapting_responses (intermediate_values (0.3127, 0.3290)) 20 1000)) 20 (K_coefficient (intermediate_values (0.4476, 0.4074)) (intermediate_values (0.3127, 0.3290)) (exponential_factors (effective_adapting_responses (intermediate_values (0.4476, 0.4074)) 20 1000)) (exponential_factors (effective_adapting_responses (intermediate_values (0.3127, 0.3290)) 20 1000)) 20 1) 1).2.2)
    rw [hM21, hM22, hM23]
    exact ZI.mem_lit (ZI.mem_add (ZI.mem_add (ZI.mem_mul (ZI.mem_div (ZI.mem_intR 141437500 (by norm_num)) (ZI.mem_intR 391585973 (by norm_num)) (by decide)) hcc1) (ZI.mem_mul (ZI.mem_div (ZI.mem_intR 250150000 (by norm_num)) (ZI.mem_intR 391585973 (by norm_num)) (by decide)) hcc2)) (ZI.mem_mul (ZI.mem_div (ZI.mem_intR (-114531250) (by norm_num)) (ZI.mem_intR 17978103606403 (by norm_num)) (by decide)) hcc3)) (by decide)
  have hX2c : ZI.mem (⟨1764301198385438862400, 1764301200266266424091⟩ : ZI) ((chromatic_adaptation_CIE1994 (28, 21.26, 5.27) (0.4476, 0.4074) (0.3127, 0.3290) 20 1000 1000 1).2.2) := by
    show ZI.mem (⟨1764301198385438862400, 1764301200266266424091⟩ : ZI)
      ((MATRIX_RGB_TO_XYZ_CIE1994.2.2.1 : ℝ) * (corresponding_colour (XYZ_to_RGB_CIE1994 (28, 21.26, 5.27)) (intermediate_values (0.4476, 0.4074)) (intermediate_values (0.3127, 0.3290)) (exponential_factors (effective_adapting_responses (intermediate_values (0.4476, 0.4074)) 20 1000)) (exponential_factors (effective_adapting_responses (intermediate_values (0.3127, 0.3290)) 20 1000)) 20 (K_coefficient (intermediate_values (0.4476, 0.4074)) (intermediate_values (0.3127, 0.3290)) (exponential_factors (effective_adapting_responses (intermediate_values (0.4476, 0.4074)) 20 1000)) (exponential_factors (effective_adapting_responses (intermediate_values (0.3127, 0.3290)) 20 1000)) 20 1) 1).1 + (MATRIX_RGB_TO_XYZ_CIE1994.2.2.2.1 : ℝ) * (corresponding_colour (XYZ_to_RGB_CIE1994 (28, 21.26, 5.27)) (intermediate_values (0.4476, 0.4074)) (intermediate_values (0.3127, 0.3290)) (exponential_factors (effective_adapting_responses (intermediate_values (0.4476, 0.4074)) 20 1000)) (exponential_factors (effective_adapting_responses (intermediate_values (0.3127, 0.3290)) 20 1000)) 20 (K_coefficient (intermediate_values (0.4476, 0.4074)) (intermediate_values (0.3127, 0.3290)) (exponential_factors (effective_adapting_responses (intermediate_values (0.4476, 0.4074)) 20 1000)) (exponential_factors (effective_adapting_responses (intermediate_values (0.3127, 0.3290)) 20 1000)) 20 1) 1).2.1 + (MATRIX_RGB_TO_XYZ_CIE1994.2.2.2.2 : ℝ) * (corresponding_colour (XYZ_to_RGB_CIE1994 (28, 21.26, 5.27)) (intermediate_values (0.4476, 0.4074)) (intermediate_values (0.3127, 0.3290)) (exponential_factors (effective_adapting_responses (intermediate_values (0.4476, 0.4074)) 20 1000)) (exponential_factors (effective_adapting_responses (intermediate_values (0.3127, 0.3290)) 20 1000)) 20 (K_coefficient (intermediate_values (0.4476, 0.4074)) (intermediate_values (0.3127, 0.3290)) (exponential_factors (effective_adapting_responses (intermediate_values (0.4476, 0.4074)) 20 1000)) (exponential_factors (effective_adapting_responses (intermediate_values (0.3127, 0.3290)) 20 1000)) 20 1) 1).2.2)
    rw [hM31, hM32, hM33]
    exact ZI.mem_lit (ZI.mem_add (ZI.mem_add (ZI.mem_mul (ZI.mem_div (ZI.mem_intR 0 (by norm_num)) (ZI.mem_intR 1 (by norm_num)) (by decide)) hcc1) (ZI.mem_mul (ZI.mem_div (ZI.mem_intR 0 (by norm_num)) (ZI.mem_intR 1 (by norm_num)) (by decide)) hcc2)) (ZI.mem_mul (ZI.mem_div (ZI.mem_intR 50000 (by norm_num)) (ZI.mem_intR 45911 (by norm_num)) (by decide)) hcc3)) (by decide)
  exact ⟨ZI.abs_sub_le hX2a (by norm_num [SCALE]) (by norm_num [SCALE]),
    ZI.abs_sub_le hX2b (by norm_num [SCALE]) (by norm_num [SCALE]),
    ZI.abs_sub_le hX2c (by norm_num [SCALE]) (by norm_num [SCALE])⟩

end Colour
